import Mathlib

/-!
Shallow embedding of the orderflow-bubbles stream-processing engine
(`src/processing.rs`, `ProcessingState`) and proofs about its claims.

Modelling conventions:
* Rust `f64` prices and derived averages are modelled as `ℚ`.  All the
  properties settled here are control-flow / structural properties that do
  not hinge on binary floating-point rounding; where the source computes a
  float (`0.7 * total` truncated to `u32`, f64 divisions compared against
  constants) the embedding uses the exact rational computation and the spot
  is marked in a doc comment.
* Rust `u32`/`u64` are modelled as `Nat`, `i64`/`i8` as `Int` (no overflow
  occurs in the quantities the claims touch).
* `HashMap` is modelled as an association list with the iteration order
  being the insertion order (Rust's `HashMap` iteration order is
  unspecified; the settled claims are insensitive to that order).
* `SystemTime::now()` reads are modelled by passing `now : Nat` explicitly;
  `process_buffer` reads the clock once, and its helper
  `get_avg_volume_per_second` receives the same `now`.
-/

namespace Orderflow

attribute [local semireducible] Rat.add Rat.mul Rat.sub Rat.inv

/-- `Trade` from `types.rs`. -/
structure Trade where
  symbol : String
  price : ℚ
  size : Nat
  side : String
  timestamp : Nat
deriving Repr, DecidableEq

/-- `VolumeProfileLevel` from `types.rs`. -/
structure VolumeProfileLevel where
  price : ℚ
  buy_volume : Nat
  sell_volume : Nat
  total_volume : Nat
deriving Repr, DecidableEq

/-- `VolumeSnapshot` from `processing.rs`. -/
structure VolumeSnapshot where
  timestamp : Nat
  volume : Nat
  delta : Int
deriving Repr, DecidableEq

/-- `AbsorptionZoneInternal` from `processing.rs`. -/
structure AbsorptionZoneInternal where
  price : ℚ
  price_key : Int
  absorption_type : String
  total_absorbed : Int
  event_count : Nat
  first_seen : Nat
  last_seen : Nat
  peak_strength : Nat
deriving Repr, DecidableEq

/-- `Bubble` from `types.rs`. -/
structure Bubble where
  id : String
  price : ℚ
  size : Nat
  side : String
  timestamp : Nat
  x : ℚ
  opacity : ℚ
  is_significant_imbalance : Bool
deriving Repr, DecidableEq

/-- `CVDPoint` from `types.rs`. -/
structure CVDPoint where
  timestamp : Nat
  value : Int
  x : ℚ
deriving Repr, DecidableEq

/-- `AbsorptionZone` (client-facing) from `types.rs`. -/
structure AbsorptionZone where
  price : ℚ
  absorption_type : String
  total_absorbed : Int
  event_count : Nat
  first_seen : Nat
  last_seen : Nat
  strength : String
  at_poc : Bool
  at_vah : Bool
  at_val : Bool
  against_trend : Bool
deriving Repr, DecidableEq

/-- `AbsorptionEvent` from `types.rs`. -/
structure AbsorptionEvent where
  timestamp : Nat
  price : ℚ
  absorption_type : String
  delta : Int
  price_change : ℚ
  strength : String
  event_count : Nat
  total_absorbed : Int
  at_key_level : Bool
  against_trend : Bool
  x : ℚ
deriving Repr, DecidableEq

/-- `DeltaFlip` from `types.rs`. -/
structure DeltaFlip where
  timestamp : Nat
  flip_type : String
  direction : String
  cvd_before : Int
  cvd_after : Int
  x : ℚ
deriving Repr, DecidableEq

/-- `StackedImbalance` from `types.rs`. -/
structure StackedImbalance where
  timestamp : Nat
  side : String
  level_count : Nat
  price_high : ℚ
  price_low : ℚ
  total_imbalance : Int
  x : ℚ
deriving Repr, DecidableEq

/-- `ConfluenceEvent` from `types.rs`. -/
structure ConfluenceEvent where
  timestamp : Nat
  price : ℚ
  direction : String
  score : Nat
  signals : List String
  price_after_1m : Option ℚ
  price_after_5m : Option ℚ
  x : ℚ
deriving Repr, DecidableEq

/-- `SignalRecord` from `types.rs`. -/
structure SignalRecord where
  timestamp : Nat
  price : ℚ
  signal_type : String
  direction : String
  price_after_1m : Option ℚ
  price_after_5m : Option ℚ
  outcome : Option String
deriving Repr, DecidableEq

/-- `SignalStats` from `types.rs`. -/
structure SignalStats where
  count : Nat
  bullish_count : Nat
  bearish_count : Nat
  wins : Nat
  losses : Nat
  avg_move_1m : ℚ
  avg_move_5m : ℚ
  win_rate : ℚ
deriving Repr, DecidableEq

/-- `SessionStats` from `types.rs`. -/
structure SessionStats where
  session_start : Nat
  delta_flips : SignalStats
  absorptions : SignalStats
  stacked_imbalances : SignalStats
  confluences : SignalStats
  current_price : ℚ
  session_high : ℚ
  session_low : ℚ
  total_volume : Nat
deriving Repr, DecidableEq

/-- `WsMessage` from `types.rs` (the tagged union the engine broadcasts). -/
inductive WsMessage where
  | bubble (b : Bubble)
  | cvdPoint (c : CVDPoint)
  | volumeProfile (levels : List VolumeProfileLevel)
  | absorption (e : AbsorptionEvent)
  | absorptionZones (zones : List AbsorptionZone)
  | deltaFlip (d : DeltaFlip)
  | stackedImbalance (s : StackedImbalance)
  | confluence (c : ConfluenceEvent)
  | sessionStats (s : SessionStats)
  | connected (symbols : List String)
  | error (message : String)
deriving Repr, DecidableEq

/-- Association-list lookup, first match wins (models `HashMap::get`). -/
def alookup {α : Type} (k : Int) : List (Int × α) → Option α
  | [] => none
  | (k2, v) :: rest => if k = k2 then some v else alookup k rest

/-- `f64::MAX` (exactly `2^1024 - 2^971`), the initial `session_low`. -/
def f64Max : ℚ := ((2 ^ 1024 - 2 ^ 971 : Nat) : ℚ)

/-- Rust `f64::round` (round half away from zero), on exact rationals. -/
def roundTies (q : ℚ) : Int := if 0 ≤ q then ⌊q + 1 / 2⌋ else -⌊-q + 1 / 2⌋

/-- The quarter-point bucket key of a price: `(price * 4.0).round() as i64`. -/
def price_key_of (p : ℚ) : Int := roundTies (p * 4)

/-- `ProcessingState` from `processing.rs`. -/
structure ProcessingState where
  trade_buffer : List Trade
  bubble_counter : Nat
  cvd : Int
  volume_profile : List (Int × VolumeProfileLevel)
  total_buy_volume : Nat
  total_sell_volume : Nat
  window_first_price : Option ℚ
  window_last_price : Option ℚ
  volume_history : List VolumeSnapshot
  absorption_zones : List (Int × AbsorptionZoneInternal)
  cvd_5s_ago : Int
  cvd_history : List (Nat × Int)
  prev_cvd_sign : Int
  last_delta_flip_time : Nat
  last_stacked_imbalance_time : Nat
  last_stacked_imbalance_side : Option String
  signal_history : List SignalRecord
  recent_signals : List (Nat × String × String × ℚ)
  session_start : Nat
  session_high : ℚ
  session_low : ℚ
  current_price : ℚ
  last_stats_broadcast : Nat
  last_confluence_time : Nat
deriving Repr, DecidableEq

/-- `ProcessingState::new()`: `now` is the clock read at construction. -/
def mkState (now : Nat) : ProcessingState where
  trade_buffer := []
  bubble_counter := 0
  cvd := 0
  volume_profile := []
  total_buy_volume := 0
  total_sell_volume := 0
  window_first_price := none
  window_last_price := none
  volume_history := []
  absorption_zones := []
  cvd_5s_ago := 0
  cvd_history := []
  prev_cvd_sign := 0
  last_delta_flip_time := 0
  last_stacked_imbalance_time := 0
  last_stacked_imbalance_side := none
  signal_history := []
  recent_signals := []
  session_start := now
  session_high := 0
  session_low := f64Max
  current_price := 0
  last_stats_broadcast := 0
  last_confluence_time := 0

/-- The `entry(price_key).and_modify(..).or_insert(..)` update of the volume
profile in `add_trade`; the `or_insert` case appends (the map holds one entry
per key). -/
def profile_upsert (t : Trade) (k : Int) (rounded_price : ℚ) :
    List (Int × VolumeProfileLevel) → List (Int × VolumeProfileLevel)
  | [] =>
    [(k, { price := rounded_price
           buy_volume := if t.side = "buy" then t.size else 0
           sell_volume := if t.side = "sell" then t.size else 0
           total_volume := t.size })]
  | (k2, level) :: rest =>
    if k = k2 then
      (k2, { level with
              buy_volume := if t.side = "buy" then level.buy_volume + t.size
                            else level.buy_volume
              sell_volume := if t.side = "buy" then level.sell_volume
                             else level.sell_volume + t.size
              total_volume := level.total_volume + t.size }) :: rest
    else (k2, level) :: profile_upsert t k rounded_price rest

/-- `ProcessingState::add_trade`.  No validation is performed: the `side`
string is compared against `"buy"` and every other value takes the sell
branch; any size (including 0) is ingested. -/
def add_trade (s : ProcessingState) (t : Trade) : ProcessingState :=
  let delta : Int := if t.side = "buy" then (t.size : Int) else -(t.size : Int)
  let pk := price_key_of t.price
  let rounded_price : ℚ := (pk : ℚ) / 4
  { s with
    cvd := s.cvd + delta
    total_buy_volume :=
      if t.side = "buy" then s.total_buy_volume + t.size else s.total_buy_volume
    total_sell_volume :=
      if t.side = "buy" then s.total_sell_volume else s.total_sell_volume + t.size
    window_first_price := some (s.window_first_price.getD t.price)
    window_last_price := some t.price
    volume_profile := profile_upsert t pk rounded_price s.volume_profile
    trade_buffer := s.trade_buffer ++ [t] }

/-- `Iterator::max_by_key(|l| l.total_volume)` over the profile values:
on ties the later element (in iteration order) wins, as in Rust. -/
def max_by_total : List (Int × VolumeProfileLevel) → Option VolumeProfileLevel
  | [] => none
  | (_, l) :: rest =>
    match max_by_total rest with
    | none => some l
    | some m => if l.total_volume > m.total_volume then some l else some m

/-- `ProcessingState::get_poc`. -/
def get_poc (s : ProcessingState) : Option ℚ :=
  (max_by_total s.volume_profile).map (·.price)

/-- Total volume of a bucket key, 0 when absent (`get(..).map(..).unwrap_or(0)`). -/
def profile_vol (m : List (Int × VolumeProfileLevel)) (k : Int) : Nat :=
  match alookup k m with
  | some l => l.total_volume
  | none => 0

/-- The `while included_vol < target_vol` expansion loop of
`ProcessingState::get_value_area`: grow `[lo, hi]` outward from the POC,
preferring the neighbour with the larger volume (ties: the upper side),
stopping when the target is reached or both neighbours are empty.

The source loop terminates because every iteration adds a neighbour of
positive volume while `included < target`; it is modelled with structural
recursion on an explicit `fuel`, called with `fuel = target + 1`, which
theorem `va_expand_reaches_target_or_gap` shows is never exhausted (when
fuel runs out the target has already been reached). -/
def va_expand (fuel : Nat) (vol : Int → Nat) (target : Nat) (hi lo : Int)
    (included : Nat) : Int × Int :=
  match fuel with
  | 0 => (hi, lo)
  | fuel + 1 =>
    if included < target then
      let above_vol := vol (hi + 1)
      let below_vol := vol (lo - 1)
      if above_vol = 0 ∧ below_vol = 0 then (hi, lo)
      else if above_vol ≥ below_vol then
        va_expand fuel vol target (hi + 1) lo (included + above_vol)
      else
        va_expand fuel vol target hi (lo - 1) (included + below_vol)
    else (hi, lo)

/-- Total session volume of the profile
(`volume_profile.values().map(|l| l.total_volume).sum()`). -/
def profile_total_vol (m : List (Int × VolumeProfileLevel)) : Nat :=
  (m.map (·.2.total_volume)).sum

/-- The 70 % value-area target.  The source computes
`(total_vol as f64 * 0.7) as u32` (an `f64` product truncated toward zero);
it is modelled as `7 * total / 10`, which agrees with the float computation
on every total used in this development.  All general theorems about the
value area are parametric in the target and hence independent of this
modelling choice. -/
def target_vol (total : Nat) : Nat := 7 * total / 10

/-- `ProcessingState::get_value_area`, parametric in the volume target. -/
def get_value_area_with (s : ProcessingState) (target : Nat) : Option (ℚ × ℚ) :=
  if s.volume_profile = [] then none
  else
    match get_poc s with
    | none => none
    | some poc =>
      let poc_key := price_key_of poc
      match alookup poc_key s.volume_profile with
      | none => none
      | some l =>
        let p := va_expand (target + 1) (profile_vol s.volume_profile) target
          poc_key poc_key l.total_volume
        some ((p.1 : ℚ) / 4, (p.2 : ℚ) / 4)

/-- `ProcessingState::get_value_area` with the source's own target. -/
def get_value_area (s : ProcessingState) : Option (ℚ × ℚ) :=
  get_value_area_with s (target_vol (profile_total_vol s.volume_profile))

/-- `ProcessingState::is_at_key_level`: `(at_poc, at_vah, at_val)`,
each within a tolerance of 0.5. -/
def is_at_key_level (s : ProcessingState) (price : ℚ) : Bool × Bool × Bool :=
  let poc := get_poc s
  let va := get_value_area s
  let at_poc := match poc with
    | some p => decide (|price - p| ≤ 1 / 2)
    | none => false
  let at_vah := match va with
    | some (h, _) => decide (|price - h| ≤ 1 / 2)
    | none => false
  let at_val := match va with
    | some (_, l) => decide (|price - l| ≤ 1 / 2)
    | none => false
  (at_poc, at_vah, at_val)

/-- The `match event_count` base strength in `calculate_strength_with_num`
(`1 → 0, 2 → 1, 3 → 2, _ → 3`; note `_` also covers 0). -/
def base_strength (event_count : Nat) : Nat :=
  match event_count with
  | 1 => 0
  | 2 => 1
  | 3 => 2
  | _ => 3

/-- `ProcessingState::calculate_strength_with_num`. -/
def calculate_strength_with_num (event_count : Nat) (at_key_level against_trend : Bool) :
    String × Nat :=
  let bonus := (if at_key_level then 1 else 0) + (if against_trend then 1 else 0)
  match base_strength event_count + bonus with
  | 0 => ("weak", 0)
  | 1 => ("medium", 1)
  | 2 => ("strong", 2)
  | _ => ("defended", 3)

/-- `ProcessingState::strength_num_to_str`. -/
def strength_num_to_str (num : Nat) : String :=
  match num with
  | 0 => "weak"
  | 1 => "medium"
  | 2 => "strong"
  | _ => "defended"

/-- The per-zone retention tier in `cleanup_old_zones` (milliseconds). -/
def zone_max_age (peak_strength : Nat) : Nat :=
  if peak_strength ≤ 1 then 5 * 60 * 1000
  else if peak_strength = 2 then 15 * 60 * 1000
  else 30 * 60 * 1000

/-- `ProcessingState::cleanup_old_zones` (`now.saturating_sub` is `Nat`
subtraction). -/
def cleanup_old_zones (zones : List (Int × AbsorptionZoneInternal)) (now : Nat) :
    List (Int × AbsorptionZoneInternal) :=
  zones.filter fun p => p.2.last_seen ≥ now - zone_max_age p.2.peak_strength

/-- `ProcessingState::cleanup_volume_history`. -/
def cleanup_volume_history (hist : List VolumeSnapshot) (now : Nat) :
    List VolumeSnapshot :=
  hist.filter fun snap => snap.timestamp ≥ now - 60 * 1000

/-- `max_by_key(|(ts, _)| *ts)` over CVD history entries (later wins ties). -/
def latest_by_ts : List (Nat × Int) → Option (Nat × Int)
  | [] => none
  | e :: rest =>
    match latest_by_ts rest with
    | none => some e
    | some m => if e.1 > m.1 then some e else some m

/-- `ProcessingState::cleanup_cvd_history`: drop entries older than 30 s and
recompute `cvd_5s_ago` as the latest retained entry with `ts ≤ now − 5000`,
falling back to the current CVD. -/
def cleanup_cvd_history (s : ProcessingState) (now : Nat) : ProcessingState :=
  let hist := s.cvd_history.filter fun e => e.1 ≥ now - 30 * 1000
  let c5 :=
    match latest_by_ts (hist.filter fun e => e.1 ≤ now - 5000) with
    | some e => e.2
    | none => s.cvd
  { s with cvd_history := hist, cvd_5s_ago := c5 }

/-- `ProcessingState::get_avg_volume_per_second` (the source re-reads the
clock; modelled with the same `now` as the enclosing tick). -/
def get_avg_volume_per_second (s : ProcessingState) (now seconds : Nat) : ℚ :=
  let recent := s.volume_history.filter fun snap => snap.timestamp ≥ now - seconds * 1000
  if recent = [] then 200
  else ((recent.map (·.volume)).sum : ℚ) / (seconds : ℚ)

/-- `ProcessingState::get_cvd_trend`. -/
def get_cvd_trend (s : ProcessingState) : Int := s.cvd - s.cvd_5s_ago

/-- The outcome classification of `update_signal_outcomes` (threshold 2.0):
bullish wins on `move ≥ +2`, loses on `move ≤ −2`, else breakeven;
bearish is symmetric. -/
def classify_outcome (direction : String) (move_amount : ℚ) : String :=
  if direction = "bullish" then
    if move_amount ≥ 2 then "win"
    else if move_amount ≤ -2 then "loss"
    else "breakeven"
  else
    if move_amount ≤ -2 then "win"
    else if move_amount ≥ 2 then "loss"
    else "breakeven"

/-- The per-record body of the `for record in &mut self.signal_history` loop
in `update_signal_outcomes`. -/
def update_record (now : Nat) (current_price : ℚ) (r : SignalRecord) : SignalRecord :=
  let r1 :=
    if r.price_after_1m = none ∧ now - r.timestamp ≥ 60000 then
      { r with price_after_1m := some current_price }
    else r
  if r1.price_after_5m = none ∧ now - r1.timestamp ≥ 300000 then
    { r1 with
      price_after_5m := some current_price
      outcome := some (classify_outcome r1.direction (current_price - r1.price)) }
  else r1

/-- `ProcessingState::update_signal_outcomes`: fill 1 m / 5 m prices and
outcomes, then evict records older than 30 minutes. -/
def update_signal_outcomes (s : ProcessingState) (now : Nat) (current_price : ℚ) :
    ProcessingState :=
  { s with
    signal_history :=
      (s.signal_history.map (update_record now current_price)).filter
        fun r => r.timestamp ≥ now - 30 * 60 * 1000 }

/-- Append an occurrence to a type's bucket in the grouped map
(`entry(sig_type).or_default().push(..)` in `detect_confluence`). -/
def group_upsert (ty : String) (occ : Nat × String) :
    List (String × List (Nat × String)) → List (String × List (Nat × String))
  | [] => [(ty, [occ])]
  | (ty2, occs) :: rest =>
    if ty = ty2 then (ty2, occs ++ [occ]) :: rest
    else (ty2, occs) :: group_upsert ty occ rest

/-- Group `recent_signals` by signal type, keeping per-type occurrences in
list order (models the `HashMap<String, Vec<(u64, String)>>` built in
`detect_confluence`; map iteration order is fixed to first-occurrence
order, which only affects the order of the emitted `signals` list). -/
def group_by_type (signals : List (Nat × String × String × ℚ)) :
    List (String × List (Nat × String)) :=
  signals.foldl (fun acc sig => group_upsert sig.2.1 (sig.1, sig.2.2.1) acc) []

/-- The per-type consensus scan of `detect_confluence`: for each distinct
type take the direction of its most recent occurrence, returning
`(bullish_count, bearish_count, signals)`. -/
def consensus_counts (types : List (String × List (Nat × String))) :
    Nat × Nat × List String :=
  types.foldl
    (fun acc entry =>
      match entry.2.getLast? with
      | some occ =>
        if occ.2 = "bullish" then (acc.1 + 1, acc.2.1, acc.2.2 ++ [entry.1])
        else (acc.1, acc.2.1 + 1, acc.2.2 ++ [entry.1])
      | none => acc)
    (0, 0, [])

/-- `ProcessingState::detect_confluence`. -/
def detect_confluence (s : ProcessingState) (now : Nat) (price : ℚ) :
    ProcessingState × List WsMessage :=
  if now - s.last_confluence_time < 10000 then (s, [])
  else if s.recent_signals.length < 2 then (s, [])
  else
    let signal_types := group_by_type s.recent_signals
    if signal_types.length < 2 then (s, [])
    else
      let counts := consensus_counts signal_types
      let bullish_count := counts.1
      let bearish_count := counts.2.1
      let signals := counts.2.2
      if bullish_count ≥ 2 ∨ bearish_count ≥ 2 then
        let direction := if bullish_count ≥ 2 then "bullish" else "bearish"
        let score := signals.length
        let confluence : ConfluenceEvent :=
          { timestamp := now, price := price, direction := direction
            score := score, signals := signals
            price_after_1m := none, price_after_5m := none, x := 23 / 25 }
        let record : SignalRecord :=
          { timestamp := now, price := price, signal_type := "confluence"
            direction := direction, price_after_1m := none
            price_after_5m := none, outcome := none }
        ({ s with
            last_confluence_time := now
            signal_history := s.signal_history ++ [record]
            recent_signals := [] },
          [WsMessage.confluence confluence])
      else (s, [])

/-- `ProcessingState::calculate_signal_stats`. -/
def calculate_signal_stats (s : ProcessingState) (signal_type : String) :
    SignalStats :=
  let signals := s.signal_history.filter fun r => r.signal_type = signal_type
  if signals = [] then
    { count := 0, bullish_count := 0, bearish_count := 0, wins := 0
      losses := 0, avg_move_1m := 0, avg_move_5m := 0, win_rate := 0 }
  else
    let count := signals.length
    let bullish_count := (signals.filter fun r => r.direction = "bullish").length
    let bearish_count := count - bullish_count
    let wins := (signals.filter fun r => r.outcome = some "win").length
    let losses := (signals.filter fun r => r.outcome = some "loss").length
    let moves_1m := signals.filterMap fun r => r.price_after_1m.map (· - r.price)
    let moves_5m := signals.filterMap fun r => r.price_after_5m.map (· - r.price)
    let avg_move_1m : ℚ :=
      if moves_1m = [] then 0 else moves_1m.sum / (moves_1m.length : ℚ)
    let avg_move_5m : ℚ :=
      if moves_5m = [] then 0 else moves_5m.sum / (moves_5m.length : ℚ)
    let completed := wins + losses
    let win_rate : ℚ :=
      if completed > 0 then ((wins : ℚ) / (completed : ℚ)) * 100 else 0
    { count := count, bullish_count := bullish_count
      bearish_count := bearish_count, wins := wins, losses := losses
      avg_move_1m := avg_move_1m, avg_move_5m := avg_move_5m
      win_rate := win_rate }

/-- `ProcessingState::broadcast_stats` (the message it sends). -/
def broadcast_stats (s : ProcessingState) : WsMessage :=
  WsMessage.sessionStats
    { session_start := s.session_start
      delta_flips := calculate_signal_stats s "delta_flip"
      absorptions := calculate_signal_stats s "absorption"
      stacked_imbalances := calculate_signal_stats s "stacked_imbalance"
      confluences := calculate_signal_stats s "confluence"
      current_price := s.current_price
      session_high := if s.session_high > 0 then s.session_high else s.current_price
      session_low := if s.session_low < f64Max then s.session_low else s.current_price
      total_volume := s.total_buy_volume + s.total_sell_volume }

/-- The state after `record_signal`'s own updates (session extremes,
recent-signal push and trim, signal-history append), before it hands off to
`detect_confluence` and `update_signal_outcomes`. -/
def rs_mid (s : ProcessingState) (now : Nat) (signal_type direction : String)
    (price : ℚ) : ProcessingState :=
  { s with
    session_high := if price > s.session_high then price else s.session_high
    session_low :=
      if price < s.session_low ∧ price > 0 then price else s.session_low
    current_price := price
    recent_signals :=
      (s.recent_signals ++ [(now, signal_type, direction, price)]).filter
        fun sig => sig.1 ≥ now - 5000
    signal_history := s.signal_history ++
      [{ timestamp := now, price := price, signal_type := signal_type
         direction := direction, price_after_1m := none, price_after_5m := none
         outcome := none }] }

/-- `ProcessingState::record_signal`: update session extremes, push the
recent-signal entry (then trim to 5 s), append a `SignalRecord`, run
confluence detection and outcome updates, and broadcast stats on a
5-second cadence. -/
def record_signal (s : ProcessingState) (now : Nat)
    (signal_type direction : String) (price : ℚ) :
    ProcessingState × List WsMessage :=
  let conf := detect_confluence (rs_mid s now signal_type direction price) now price
  let s4 := update_signal_outcomes conf.1 now price
  if now - s4.last_stats_broadcast ≥ 5000 then
    ({ s4 with last_stats_broadcast := now },
      conf.2 ++ [broadcast_stats s4])
  else (s4, conf.2)

/-- Upsert into the 1-point bucket map of `detect_stacked_imbalances`
(`entry(point_key).and_modify(..).or_insert(..)`). -/
def point_upsert (k : Int) (buy sell : Nat) :
    List (Int × Nat × Nat) → List (Int × Nat × Nat)
  | [] => [(k, buy, sell)]
  | (k2, b2, s2) :: rest =>
    if k = k2 then (k2, b2 + buy, s2 + sell) :: rest
    else (k2, b2, s2) :: point_upsert k buy sell rest

/-- Aggregate the quarter-point profile into 1-point buckets by flooring
each level's price (`level.price.floor() as i64`). -/
def point_buckets (profile : List (Int × VolumeProfileLevel)) :
    List (Int × Nat × Nat) :=
  profile.foldl
    (fun acc p => point_upsert ⌊p.2.price⌋ p.2.buy_volume p.2.sell_volume acc) []

/-- Insertion step of sorting the 1-point buckets by key
(`levels.sort_by_key`; keys are unique so stability is irrelevant). -/
def insert_by_key (x : Int × Nat × Nat) :
    List (Int × Nat × Nat) → List (Int × Nat × Nat)
  | [] => [x]
  | y :: ys => if x.1 ≤ y.1 then x :: y :: ys else y :: insert_by_key x ys

/-- Sort the 1-point buckets by ascending key. -/
def sort_by_key (l : List (Int × Nat × Nat)) : List (Int × Nat × Nat) :=
  l.foldr insert_by_key []

/-- Accumulator of the streak walk in `detect_stacked_imbalances`. -/
structure StreakAcc where
  best_side : Option String
  best : List (Int × Int)
  cur_side : Option String
  cur : List (Int × Int)
deriving Repr, DecidableEq

/-- `if current_streak.len() > best_streak.len() && current_streak.len() >= 3`
promote the current streak to best. -/
def save_best (acc : StreakAcc) : StreakAcc :=
  if acc.cur.length > acc.best.length ∧ acc.cur.length ≥ 3 then
    { acc with best := acc.cur, best_side := acc.cur_side }
  else acc

/-- The dominance side of a 1-point bucket: buy when
`buy / total ≥ 0.70`, sell when `≤ 0.30`, otherwise none (the source
compares `f64` ratios; modelled exactly over `ℚ`). -/
def level_side_of (buy sell : Nat) : Option String :=
  let total := buy + sell
  if (buy : ℚ) / (total : ℚ) ≥ 7 / 10 then some "buy"
  else if (buy : ℚ) / (total : ℚ) ≤ 1 - 7 / 10 then some "sell"
  else none

/-- One iteration of the `for (price_key, (buy_vol, sell_vol)) in &levels`
loop of `detect_stacked_imbalances`.  Buckets with volume below 100 break
the streak; a bucket dominated by the current side extends it (note: the
source never checks that the bucket key is adjacent to the previous one). -/
def streak_step (acc : StreakAcc) (lvl : Int × Nat × Nat) : StreakAcc :=
  let price_key := lvl.1
  let buy_vol := lvl.2.1
  let sell_vol := lvl.2.2
  let total := buy_vol + sell_vol
  if total < 100 then
    let acc := save_best acc
    { acc with cur_side := none, cur := [] }
  else
    let level_delta : Int := (buy_vol : Int) - (sell_vol : Int)
    match level_side_of buy_vol sell_vol, acc.cur_side with
    | some side, some streak_side =>
      if side = streak_side then
        { acc with cur := acc.cur ++ [(price_key, level_delta)] }
      else
        let acc := save_best acc
        { acc with cur_side := some side, cur := [(price_key, level_delta)] }
    | some side, none =>
      let acc := save_best acc
      { acc with cur_side := some side, cur := [(price_key, level_delta)] }
    | none, _ =>
      let acc := save_best acc
      { acc with cur_side := none, cur := [] }

/-- The best streak of the session profile: the full walk of
`detect_stacked_imbalances`, including the final promotion check. -/
def best_streak_of (profile : List (Int × VolumeProfileLevel)) :
    Option String × List (Int × Int) :=
  let levels := sort_by_key (point_buckets profile)
  let acc := levels.foldl streak_step
    { best_side := none, best := [], cur_side := none, cur := [] }
  let acc := save_best acc
  (acc.best_side, acc.best)

/-- `ProcessingState::detect_stacked_imbalances`: 30 s cooldown, then emit
the best streak when it has ≥ 4 levels and its side differs from the last
emission; a successful emission records a `stacked_imbalance` signal at the
streak's mid price. -/
def detect_stacked_imbalances (s : ProcessingState) (now : Nat) :
    ProcessingState × List WsMessage :=
  if now - s.last_stacked_imbalance_time < 30000 then (s, [])
  else if s.volume_profile = [] then (s, [])
  else
    let best := best_streak_of s.volume_profile
    if best.2.length ≥ 4 then
      match best.1 with
      | some side =>
        if s.last_stacked_imbalance_side ≠ some side then
          let price_low : ℚ := (((best.2.head?.getD (0, 0)).1 : Int) : ℚ)
          let price_high : ℚ := (((best.2.getLast?.getD (0, 0)).1 : Int) : ℚ) + 1
          let total_imbalance : Int := (best.2.map (fun p => |p.2|)).sum
          let stacked : StackedImbalance :=
            { timestamp := now, side := side, level_count := best.2.length
              price_high := price_high, price_low := price_low
              total_imbalance := total_imbalance, x := 23 / 25 }
          let s2 := { s with
            last_stacked_imbalance_time := now
            last_stacked_imbalance_side := some side }
          let stacked_direction := if side = "buy" then "bullish" else "bearish"
          let mid_price := (price_low + price_high) / 2
          let rs := record_signal s2 now "stacked_imbalance" stacked_direction mid_price
          (rs.1, WsMessage.stackedImbalance stacked :: rs.2)
        else (s, [])
      | none => (s, [])
    else (s, [])

/-- Replace (or append) a zone at a key: the write-back of the
`entry(price_key).or_insert_with(..)` mutation in `process_buffer`. -/
def zone_upsert (k : Int) (z : AbsorptionZoneInternal) :
    List (Int × AbsorptionZoneInternal) → List (Int × AbsorptionZoneInternal)
  | [] => [(k, z)]
  | (k2, z2) :: rest =>
    if k = k2 then (k2, z) :: rest else (k2, z2) :: zone_upsert k z rest

/-- `absorption_zones.get_mut(&price_key)` followed by
`z.peak_strength = strength_num`. -/
def zone_set_peak (k : Int) (p : Nat) :
    List (Int × AbsorptionZoneInternal) → List (Int × AbsorptionZoneInternal)
  | [] => []
  | (k2, z2) :: rest =>
    if k = k2 then (k2, { z2 with peak_strength := p }) :: rest
    else (k2, z2) :: zone_set_peak k p rest

/-- The enhanced-absorption section of `process_buffer` (lines following the
`window_first_price` / `window_last_price` match): dynamic threshold
`max(0.4 × avg_vol30, 20)` (the `as i64` truncation of a non-negative float
is the floor), the one-tick price tolerance 0.25, zone update, monotone peak
strength, and the emission gate. -/
def absorption_step (s : ProcessingState) (now : Nat) (delta : Int)
    (avg_price : ℚ) : ProcessingState × List WsMessage :=
  match s.window_first_price, s.window_last_price with
  | some first_price, some last_price =>
    let price_change := last_price - first_price
    let abs_delta := |delta|
    let avg_vol := get_avg_volume_per_second s now 30
    let min_delta_threshold : Int := ⌊max (avg_vol * (4 / 10)) 20⌋
    if abs_delta ≥ min_delta_threshold then
      let is_buying_absorbed : Bool := decide (delta > 0 ∧ price_change ≤ 1 / 4)
      let is_selling_absorbed : Bool := decide (delta < 0 ∧ price_change ≥ -(1 / 4))
      if is_buying_absorbed || is_selling_absorbed then
        let absorption_type := if is_buying_absorbed then "buying" else "selling"
        let pk := price_key_of avg_price
        let kl := is_at_key_level s avg_price
        let at_key_level : Bool := kl.1 || kl.2.1 || kl.2.2
        let cvd_trend := get_cvd_trend s
        let against_trend : Bool :=
          (is_buying_absorbed && decide (cvd_trend > 100)) ||
          (is_selling_absorbed && decide (cvd_trend < -100))
        let z0 := (alookup pk s.absorption_zones).getD
          { price := avg_price, price_key := pk
            absorption_type := absorption_type, total_absorbed := 0
            event_count := 0, first_seen := now, last_seen := now
            peak_strength := 0 }
        let z1 := { z0 with
          total_absorbed := z0.total_absorbed + abs_delta
          event_count := z0.event_count + 1
          last_seen := now
          absorption_type := absorption_type }
        let zones1 := zone_upsert pk z1 s.absorption_zones
        let strength := calculate_strength_with_num z1.event_count at_key_level
          against_trend
        let zones2 :=
          if strength.2 > z1.peak_strength then zone_set_peak pk strength.2 zones1
          else zones1
        let s2 := { s with absorption_zones := zones2 }
        let should_emit : Bool :=
          decide (strength.1 ≠ "weak") || (decide (z1.event_count = 1) && at_key_level)
        if should_emit then
          let absorption_event : AbsorptionEvent :=
            { timestamp := now, price := avg_price
              absorption_type := absorption_type, delta := delta
              price_change := price_change, strength := strength.1
              event_count := z1.event_count, total_absorbed := z1.total_absorbed
              at_key_level := at_key_level, against_trend := against_trend
              x := 23 / 25 }
          let abs_direction := if is_buying_absorbed then "bearish" else "bullish"
          let rs := record_signal s2 now "absorption" abs_direction avg_price
          (rs.1, WsMessage.absorption absorption_event :: rs.2)
        else (s2, [])
      else (s, [])
    else (s, [])
  | _, _ => (s, [])

/-- The end-of-tick emission of active absorption zones (those with
`event_count ≥ 2`), with key-level and trend flags recomputed and the
reported strength taken from the monotone `peak_strength`. -/
def active_zones_msg (s : ProcessingState) : List WsMessage :=
  let zones := (s.absorption_zones.filter fun p => p.2.event_count ≥ 2).map
    fun p =>
      let z := p.2
      let kl := is_at_key_level s z.price
      let cvd_trend := get_cvd_trend s
      let against_trend : Bool :=
        (decide (z.absorption_type = "buying") && decide (cvd_trend > 100)) ||
        (decide (z.absorption_type = "selling") && decide (cvd_trend < -100))
      ({ price := z.price, absorption_type := z.absorption_type
         total_absorbed := z.total_absorbed, event_count := z.event_count
         first_seen := z.first_seen, last_seen := z.last_seen
         strength := strength_num_to_str z.peak_strength
         at_poc := kl.1, at_vah := kl.2.1, at_val := kl.2.2
         against_trend := against_trend } : AbsorptionZone)
  if zones = [] then [] else [WsMessage.absorptionZones zones]

/-- The buy-side trades of the window buffer. -/
def buffer_buy_trades (buffer : List Trade) : List Trade :=
  buffer.filter fun t => t.side = "buy"

/-- The sell-side trades of the window buffer (everything not `"buy"`). -/
def buffer_sell_trades (buffer : List Trade) : List Trade :=
  buffer.filter fun t => ¬(t.side = "buy")

/-- Total buy volume of the window buffer. -/
def buffer_buy_volume (buffer : List Trade) : Nat :=
  ((buffer_buy_trades buffer).map (·.size)).sum

/-- Total sell volume of the window buffer. -/
def buffer_sell_volume (buffer : List Trade) : Nat :=
  ((buffer_sell_trades buffer).map (·.size)).sum

/-- The CVD sign computation of `process_buffer`
(`1` if positive, `-1` if negative, `0` if zero). -/
def cvd_sign (cvd : Int) : Int := if cvd > 0 then 1 else if cvd < 0 then -1 else 0

/-- Volume-weighted average price of a trade list (the dominant-side VWAP of
`process_buffer`): `Σ price·size / Σ size`. -/
def vwap (trades : List Trade) : ℚ :=
  ((trades.map fun t => t.price * (t.size : ℚ)).sum) /
    (((trades.map (·.size)).sum : Nat) : ℚ)

/-- `ProcessingState::process_buffer`: the engine tick.  Returns the updated
state and the messages sent, in the source's send order (bubble, CVD point,
delta flip, stacked imbalance, absorption, zone list, each detector's
recorded-signal messages inline). -/
def process_buffer (s : ProcessingState) (now : Nat) :
    ProcessingState × List WsMessage :=
  if s.trade_buffer = [] then (s, [])
  else
    let s := { s with
      absorption_zones := cleanup_old_zones s.absorption_zones now
      volume_history := cleanup_volume_history s.volume_history now }
    let s := cleanup_cvd_history s now
    let total_buy_volume := buffer_buy_volume s.trade_buffer
    let total_sell_volume := buffer_sell_volume s.trade_buffer
    let buy_trades := buffer_buy_trades s.trade_buffer
    let sell_trades := buffer_sell_trades s.trade_buffer
    let total_volume := total_buy_volume + total_sell_volume
    if total_volume = 0 then ({ s with trade_buffer := [] }, [])
    else
      let delta : Int := (total_buy_volume : Int) - (total_sell_volume : Int)
      let dominant_side := if delta > 0 then "buy" else "sell"
      let dominant_volume := if delta > 0 then total_buy_volume else total_sell_volume
      let dominant_trades := if delta > 0 then buy_trades else sell_trades
      let avg_price : ℚ :=
        if dominant_trades ≠ [] then vwap dominant_trades
        else (s.trade_buffer.map (·.price)).sum / (s.trade_buffer.length : ℚ)
      let s := { s with
        volume_history := s.volume_history ++
          [({ timestamp := now, volume := total_volume, delta := delta } :
            VolumeSnapshot)]
        cvd_history := s.cvd_history ++ [(now, s.cvd)] }
      let imb_ratio : ℚ := ((|delta| : Int) : ℚ) / (total_volume : ℚ)
      let is_significant : Bool := decide (imb_ratio > 15 / 100)
      let bubble : Bubble :=
        { id := "bubble-" ++ toString s.bubble_counter, price := avg_price
          size := dominant_volume, side := dominant_side, timestamp := now
          x := 23 / 25, opacity := 1, is_significant_imbalance := is_significant }
      let s := { s with bubble_counter := s.bubble_counter + 1 }
      let cvd_point : CVDPoint := { timestamp := now, value := s.cvd, x := 23 / 25 }
      let current_cvd_sign : Int := cvd_sign s.cvd
      let fl :=
        if s.prev_cvd_sign ≠ 0 ∧ current_cvd_sign ≠ 0 ∧
            s.prev_cvd_sign ≠ current_cvd_sign ∧
            now - s.last_delta_flip_time > 2000 then
          let direction := if current_cvd_sign > 0 then "bullish" else "bearish"
          let delta_flip : DeltaFlip :=
            { timestamp := now, flip_type := "zero_cross", direction := direction
              cvd_before := s.cvd_5s_ago, cvd_after := s.cvd, x := 23 / 25 }
          let s2 := { s with last_delta_flip_time := now }
          let rs := record_signal s2 now "delta_flip" direction avg_price
          (rs.1, WsMessage.deltaFlip delta_flip :: rs.2)
        else (s, [])
      let s := { fl.1 with prev_cvd_sign := current_cvd_sign }
      let st := detect_stacked_imbalances s now
      let ab := absorption_step st.1 now delta avg_price
      let zmsgs := active_zones_msg ab.1
      let s := { ab.1 with
        window_first_price := none, window_last_price := none
        trade_buffer := [] }
      (s, WsMessage.bubble bubble :: WsMessage.cvdPoint cvd_point ::
        (fl.2 ++ st.2 ++ ab.2 ++ zmsgs))

/-- A driver operation: ingest one trade, or run one tick at a clock value. -/
inductive Op where
  | ingest (t : Trade)
  | tick (now : Nat)
deriving Repr, DecidableEq

/-- One driver step. -/
def stepOp (s : ProcessingState) : Op → ProcessingState × List WsMessage
  | Op.ingest t => (add_trade s t, [])
  | Op.tick now => process_buffer s now

/-- Run a list of driver operations, collecting all broadcast messages. -/
def run (s : ProcessingState) : List Op → ProcessingState × List WsMessage
  | [] => (s, [])
  | op :: ops =>
    let r1 := stepOp s op
    let r2 := run r1.1 ops
    (r2.1, r1.2 ++ r2.2)

/-- The delta-flip artifacts among a message list. -/
def flip_events (msgs : List WsMessage) : List DeltaFlip :=
  msgs.filterMap fun m =>
    match m with
    | WsMessage.deltaFlip d => some d
    | _ => none

/-- The stacked-imbalance artifacts among a message list. -/
def stacked_events (msgs : List WsMessage) : List StackedImbalance :=
  msgs.filterMap fun m =>
    match m with
    | WsMessage.stackedImbalance e => some e
    | _ => none

/-- The confluence artifacts among a message list. -/
def confluence_events (msgs : List WsMessage) : List ConfluenceEvent :=
  msgs.filterMap fun m =>
    match m with
    | WsMessage.confluence c => some c
    | _ => none

/-- Emission times of the delta flips in a message list. -/
def flip_times (msgs : List WsMessage) : List Nat :=
  (flip_events msgs).map (·.timestamp)

/-- Emission times of the stacked imbalances in a message list. -/
def stacked_times (msgs : List WsMessage) : List Nat :=
  (stacked_events msgs).map (·.timestamp)

/-- Emission times of the confluences in a message list. -/
def confluence_times (msgs : List WsMessage) : List Nat :=
  (confluence_events msgs).map (·.timestamp)

/-! ### Shared helper lemmas -/

/-- A tick that finds an empty buffer returns before touching anything. -/
theorem process_buffer_of_empty (s : ProcessingState) (now : Nat)
    (h : s.trade_buffer = []) : process_buffer s now = (s, []) := by
  unfold process_buffer
  simp [h]

/-- Unfolding `run` over a cons. -/
theorem run_cons (s : ProcessingState) (op : Op) (ops : List Op) :
    run s (op :: ops) =
      ((run (stepOp s op).1 ops).1, (stepOp s op).2 ++ (run (stepOp s op).1 ops).2) := by
  rfl

/-! ### C9: empty ticks are no-ops and can be interleaved freely -/

/-- C9.  A tick that finds an empty trade buffer leaves the state unchanged
and emits nothing; consequently inserting such a `tick` anywhere in an
operation sequence (at a point where the buffer is empty) changes neither
the final state (CVD, volume profile, everything else) nor the emitted
artifact list. -/
theorem empty_tick_noop (s : ProcessingState) (pre : List Op) (t : Nat)
    (post : List Op) (h : (run s pre).1.trade_buffer = []) :
    process_buffer (run s pre).1 t = ((run s pre).1, []) ∧
    run s (pre ++ Op.tick t :: post) = run s (pre ++ post) := by
  refine ⟨process_buffer_of_empty _ _ h, ?_⟩
  induction pre generalizing s with
  | nil =>
    simp only [List.nil_append]
    rw [run_cons]
    have hs : stepOp s (Op.tick t) = (s, []) := by
      simpa [stepOp] using process_buffer_of_empty s t (by simpa [run] using h)
    simp [hs]
  | cons op ops ih =>
    simp only [List.cons_append]
    rw [run_cons, run_cons]
    have h2 : (run (stepOp s op).1 ops).1.trade_buffer = [] := by
      rw [run_cons] at h
      exact h
    rw [ih _ h2]

/-- Witness for C9 at a concrete trace: one trade, a tick that consumes it,
an extra empty tick at 1500, then another trade and tick. -/
theorem empty_tick_noop_witness :
    ((run (mkState 0) [Op.ingest ⟨"NQ", 100, 10, "buy", 0⟩, Op.tick 1000]).1.trade_buffer = []) ∧
    (process_buffer (run (mkState 0) [Op.ingest ⟨"NQ", 100, 10, "buy", 0⟩, Op.tick 1000]).1 1500 =
      ((run (mkState 0) [Op.ingest ⟨"NQ", 100, 10, "buy", 0⟩, Op.tick 1000]).1, []) ∧
     run (mkState 0) ([Op.ingest ⟨"NQ", 100, 10, "buy", 0⟩, Op.tick 1000] ++ Op.tick 1500 ::
        [Op.ingest ⟨"NQ", 101, 5, "sell", 0⟩, Op.tick 2000]) =
      run (mkState 0) ([Op.ingest ⟨"NQ", 100, 10, "buy", 0⟩, Op.tick 1000] ++
        [Op.ingest ⟨"NQ", 101, 5, "sell", 0⟩, Op.tick 2000])) :=
  ⟨by decide,
    empty_tick_noop (mkState 0) [Op.ingest ⟨"NQ", 100, 10, "buy", 0⟩, Op.tick 1000] 1500
      [Op.ingest ⟨"NQ", 101, 5, "sell", 0⟩, Op.tick 2000] (by decide)⟩

/-! ### C10: the dominant side is never empty past the guards -/

/-- C10.  When `process_buffer` proceeds past its guards (non-empty buffer
with positive total volume), the dominant side's trade list is non-empty
and its total size — the VWAP divisor — is positive, so the arithmetic-mean
fallback is unreachable; the fallback's own divisor (the buffer length) is
positive as well. -/
theorem dominant_side_nonempty (s : ProcessingState)
    (hbuf : s.trade_buffer ≠ [])
    (htot : buffer_buy_volume s.trade_buffer + buffer_sell_volume s.trade_buffer ≠ 0) :
    (if ((buffer_buy_volume s.trade_buffer : Int) - (buffer_sell_volume s.trade_buffer : Int)) > 0
      then buffer_buy_trades s.trade_buffer else buffer_sell_trades s.trade_buffer) ≠ [] ∧
    0 < (((if ((buffer_buy_volume s.trade_buffer : Int) - (buffer_sell_volume s.trade_buffer : Int)) > 0
      then buffer_buy_trades s.trade_buffer else buffer_sell_trades s.trade_buffer).map (·.size)).sum) ∧
    0 < s.trade_buffer.length := by
  have hlen : 0 < s.trade_buffer.length := List.length_pos.mpr hbuf
  by_cases hd : ((buffer_buy_volume s.trade_buffer : Int) - (buffer_sell_volume s.trade_buffer : Int)) > 0
  · have hbv : 0 < buffer_buy_volume s.trade_buffer := by
      by_contra hz
      push_neg at hz
      interval_cases h : buffer_buy_volume s.trade_buffer
      · simp [h] at hd
        omega
    have hsum : 0 < ((buffer_buy_trades s.trade_buffer).map (·.size)).sum := hbv
    refine ⟨?_, by simpa [hd] using hsum, hlen⟩
    intro hnil
    rw [if_pos hd] at hnil
    rw [hnil] at hsum
    simp at hsum
  · have hsv : 0 < buffer_sell_volume s.trade_buffer := by omega
    have hsum : 0 < ((buffer_sell_trades s.trade_buffer).map (·.size)).sum := hsv
    refine ⟨?_, by simpa [hd] using hsum, hlen⟩
    intro hnil
    rw [if_neg hd] at hnil
    rw [hnil] at hsum
    simp at hsum

/-- Witness for C10: a buffer holding one buy and one sell trade. -/
theorem dominant_side_nonempty_witness :
    (({ mkState 0 with trade_buffer :=
        [⟨"NQ", 100, 10, "buy", 0⟩, ⟨"NQ", 100, 4, "sell", 0⟩] } :
        ProcessingState).trade_buffer ≠ [] ∧
      buffer_buy_volume [(⟨"NQ", 100, 10, "buy", 0⟩ : Trade), ⟨"NQ", 100, 4, "sell", 0⟩] +
        buffer_sell_volume [(⟨"NQ", 100, 10, "buy", 0⟩ : Trade), ⟨"NQ", 100, 4, "sell", 0⟩] ≠ 0) ∧
    ((if ((buffer_buy_volume [(⟨"NQ", 100, 10, "buy", 0⟩ : Trade), ⟨"NQ", 100, 4, "sell", 0⟩] : Int) -
        (buffer_sell_volume [(⟨"NQ", 100, 10, "buy", 0⟩ : Trade), ⟨"NQ", 100, 4, "sell", 0⟩] : Int)) > 0
      then buffer_buy_trades [(⟨"NQ", 100, 10, "buy", 0⟩ : Trade), ⟨"NQ", 100, 4, "sell", 0⟩]
      else buffer_sell_trades [(⟨"NQ", 100, 10, "buy", 0⟩ : Trade), ⟨"NQ", 100, 4, "sell", 0⟩]) ≠ [] ∧
      0 < (((if ((buffer_buy_volume [(⟨"NQ", 100, 10, "buy", 0⟩ : Trade), ⟨"NQ", 100, 4, "sell", 0⟩] : Int) -
        (buffer_sell_volume [(⟨"NQ", 100, 10, "buy", 0⟩ : Trade), ⟨"NQ", 100, 4, "sell", 0⟩] : Int)) > 0
      then buffer_buy_trades [(⟨"NQ", 100, 10, "buy", 0⟩ : Trade), ⟨"NQ", 100, 4, "sell", 0⟩]
      else buffer_sell_trades [(⟨"NQ", 100, 10, "buy", 0⟩ : Trade), ⟨"NQ", 100, 4, "sell", 0⟩]).map (·.size)).sum) ∧
      0 < (({ mkState 0 with trade_buffer :=
        [⟨"NQ", 100, 10, "buy", 0⟩, ⟨"NQ", 100, 4, "sell", 0⟩] } :
        ProcessingState).trade_buffer).length) :=
  ⟨⟨by decide, by decide⟩,
    dominant_side_nonempty
      { mkState 0 with trade_buffer := [⟨"NQ", 100, 10, "buy", 0⟩, ⟨"NQ", 100, 4, "sell", 0⟩] }
      (by decide) (by decide)⟩

/-! ### C6: malformed trades are not dropped (no validation exists) -/

/-- Counterexample to C6: a trade whose side string is `"hold"` (neither
`"buy"` nor `"sell"`) is not dropped — it is processed as a sell: CVD
decreases by the size, the sell total increases, the buffer and the volume
profile are updated.  No drop counter exists anywhere in the engine. -/
theorem malformed_trade_ingested_counterexample :
    (add_trade (mkState 0) ⟨"NQ", 100, 5, "hold", 0⟩).cvd = -5 ∧
    (add_trade (mkState 0) ⟨"NQ", 100, 5, "hold", 0⟩).total_sell_volume = 5 ∧
    (add_trade (mkState 0) ⟨"NQ", 100, 5, "hold", 0⟩).trade_buffer ≠ [] ∧
    (add_trade (mkState 0) ⟨"NQ", 100, 5, "hold", 0⟩).volume_profile ≠ [] ∧
    (add_trade (mkState 0) ⟨"NQ", 0, 0, "buy", 0⟩).trade_buffer ≠ [] := by
  decide

/-- Looking up the trade's key after `profile_upsert` when the key was
absent: the `or_insert` path creates a fresh level whose buy / sell sides
are non-zero only for a literal `"buy"` / `"sell"` side string. -/
theorem alookup_profile_upsert_none (t : Trade) (k : Int) (rp : ℚ)
    (m : List (Int × VolumeProfileLevel)) (h : alookup k m = none) :
    alookup k (profile_upsert t k rp m) =
      some ⟨rp, if t.side = "buy" then t.size else 0,
        if t.side = "sell" then t.size else 0, t.size⟩ := by
  induction m with
  | nil => simp [profile_upsert, alookup]
  | cons p rest ih =>
    rcases p with ⟨k2, l2⟩
    simp only [alookup] at h
    by_cases hk : k = k2
    · rw [if_pos hk] at h
      exact absurd h (by simp)
    · rw [if_neg hk] at h
      simp only [profile_upsert]
      rw [if_neg hk]
      simp only [alookup]
      rw [if_neg hk]
      exact ih h

/-- Looking up the trade's key after `profile_upsert` when the key was
present: the `and_modify` path grows the sell side for every side string
other than `"buy"`, and always grows the total. -/
theorem alookup_profile_upsert_some (t : Trade) (k : Int) (rp : ℚ)
    (m : List (Int × VolumeProfileLevel)) (lvl : VolumeProfileLevel)
    (h : alookup k m = some lvl) :
    alookup k (profile_upsert t k rp m) =
      some ⟨lvl.price,
        if t.side = "buy" then lvl.buy_volume + t.size else lvl.buy_volume,
        if t.side = "buy" then lvl.sell_volume else lvl.sell_volume + t.size,
        lvl.total_volume + t.size⟩ := by
  induction m with
  | nil => simp [alookup] at h
  | cons p rest ih =>
    rcases p with ⟨k2, l2⟩
    simp only [alookup] at h
    by_cases hk : k = k2
    · rw [if_pos hk] at h
      simp only [Option.some.injEq] at h
      subst h
      simp only [profile_upsert]
      rw [if_pos hk]
      simp only [alookup]
      rw [if_pos hk]
    · rw [if_neg hk] at h
      simp only [profile_upsert]
      rw [if_neg hk]
      simp only [alookup]
      rw [if_neg hk]
      exact ih h

/-- C6 (amended).  `add_trade` performs no validation and is never fatal
(it is a total function): a trade with an unrecognized side string takes
the else/sell branches — CVD decreases by the size, `total_sell_volume`
grows, the window prices and buffer are updated; in the volume profile an
existing bucket at the trade's key has its sell side and total grown by
the size (buy side unchanged), while a missing bucket is freshly created
with buy side 0 and a sell side that is non-zero only for a literal
`"sell"` (so 0 for an unknown side), total equal to the size.  A zero-size
trade is likewise ingested (appended to the buffer, window prices updated)
rather than dropped. -/
theorem add_trade_no_validation (s : ProcessingState) (t : Trade)
    (hside : t.side ≠ "buy") :
    (add_trade s t).cvd = s.cvd - t.size ∧
    (add_trade s t).total_sell_volume = s.total_sell_volume + t.size ∧
    (add_trade s t).total_buy_volume = s.total_buy_volume ∧
    (add_trade s t).trade_buffer = s.trade_buffer ++ [t] ∧
    (add_trade s t).window_last_price = some t.price ∧
    (∀ lvl, alookup (price_key_of t.price) s.volume_profile = some lvl →
      alookup (price_key_of t.price) (add_trade s t).volume_profile =
        some ⟨lvl.price, lvl.buy_volume, lvl.sell_volume + t.size,
          lvl.total_volume + t.size⟩) ∧
    (alookup (price_key_of t.price) s.volume_profile = none →
      alookup (price_key_of t.price) (add_trade s t).volume_profile =
        some ⟨((price_key_of t.price : Int) : ℚ) / 4, 0,
          if t.side = "sell" then t.size else 0, t.size⟩) ∧
    ∀ u : Trade, u.size = 0 →
      (add_trade s u).cvd = s.cvd ∧
      (add_trade s u).trade_buffer = s.trade_buffer ++ [u] ∧
      (add_trade s u).window_last_price = some u.price := by
  unfold add_trade
  refine ⟨?_, ?_, ?_, rfl, rfl, ?_, ?_, ?_⟩
  · simp [hside, sub_eq_add_neg]
  · simp [hside]
  · simp [hside]
  · intro lvl hl
    dsimp only
    rw [alookup_profile_upsert_some t _ _ _ lvl hl]
    simp [hside]
  · intro hl
    dsimp only
    rw [alookup_profile_upsert_none t _ _ _ hl]
    simp [hside]
  · intro u hu
    refine ⟨?_, rfl, rfl⟩
    by_cases hb : u.side = "buy" <;> simp [hb, hu]

/-- Witness for C6 at a concrete state and trade. -/
theorem add_trade_no_validation_witness :
    ((⟨"NQ", 101, 7, "unknown", 3⟩ : Trade).side ≠ "buy") ∧
    ((add_trade (mkState 5) ⟨"NQ", 101, 7, "unknown", 3⟩).cvd = (mkState 5).cvd - 7 ∧
      (add_trade (mkState 5) ⟨"NQ", 101, 7, "unknown", 3⟩).total_sell_volume =
        (mkState 5).total_sell_volume + 7 ∧
      (add_trade (mkState 5) ⟨"NQ", 101, 7, "unknown", 3⟩).total_buy_volume =
        (mkState 5).total_buy_volume ∧
      (add_trade (mkState 5) ⟨"NQ", 101, 7, "unknown", 3⟩).trade_buffer =
        (mkState 5).trade_buffer ++ [⟨"NQ", 101, 7, "unknown", 3⟩] ∧
      (add_trade (mkState 5) ⟨"NQ", 101, 7, "unknown", 3⟩).window_last_price =
        some (101 : ℚ) ∧
      (∀ lvl, alookup (price_key_of (101 : ℚ)) (mkState 5).volume_profile =
          some lvl →
        alookup (price_key_of (101 : ℚ))
            (add_trade (mkState 5) ⟨"NQ", 101, 7, "unknown", 3⟩).volume_profile =
          some ⟨lvl.price, lvl.buy_volume, lvl.sell_volume + 7,
            lvl.total_volume + 7⟩) ∧
      (alookup (price_key_of (101 : ℚ)) (mkState 5).volume_profile = none →
        alookup (price_key_of (101 : ℚ))
            (add_trade (mkState 5) ⟨"NQ", 101, 7, "unknown", 3⟩).volume_profile =
          some ⟨((price_key_of (101 : ℚ) : Int) : ℚ) / 4, 0,
            if ("unknown" : String) = "sell" then 7 else 0, 7⟩) ∧
      ∀ u : Trade, u.size = 0 →
        (add_trade (mkState 5) u).cvd = (mkState 5).cvd ∧
        (add_trade (mkState 5) u).trade_buffer = (mkState 5).trade_buffer ++ [u] ∧
        (add_trade (mkState 5) u).window_last_price = some u.price) :=
  ⟨by decide, add_trade_no_validation (mkState 5) ⟨"NQ", 101, 7, "unknown", 3⟩ (by decide)⟩

/-! ### Message-kind lemmas: which artifact kinds each helper can emit -/

theorem flip_events_append (a b : List WsMessage) :
    flip_events (a ++ b) = flip_events a ++ flip_events b := by
  simp [flip_events]

theorem stacked_events_append (a b : List WsMessage) :
    stacked_events (a ++ b) = stacked_events a ++ stacked_events b := by
  simp [stacked_events]

theorem confluence_events_append (a b : List WsMessage) :
    confluence_events (a ++ b) = confluence_events a ++ confluence_events b := by
  simp [confluence_events]

/-- `detect_confluence` emits at most one message, and it is a confluence. -/
theorem detect_confluence_msgs (s : ProcessingState) (now : Nat) (price : ℚ) :
    (detect_confluence s now price).2 = [] ∨
      ∃ c, (detect_confluence s now price).2 = [WsMessage.confluence c] := by
  unfold detect_confluence
  dsimp only
  split_ifs <;> simp

/-- `detect_confluence` emits no delta flips. -/
theorem flip_events_detect_confluence (s : ProcessingState) (now : Nat) (price : ℚ) :
    flip_events (detect_confluence s now price).2 = [] := by
  unfold detect_confluence
  dsimp only
  split_ifs <;> simp [flip_events]

/-- `detect_confluence` emits no stacked imbalances. -/
theorem stacked_events_detect_confluence (s : ProcessingState) (now : Nat) (price : ℚ) :
    stacked_events (detect_confluence s now price).2 = [] := by
  unfold detect_confluence
  dsimp only
  split_ifs <;> simp [stacked_events]

/-- The session-stats broadcast is never a delta flip. -/
theorem flip_events_broadcast (s : ProcessingState) :
    flip_events [broadcast_stats s] = [] := by
  simp [flip_events, broadcast_stats]

/-- The session-stats broadcast is never a stacked imbalance. -/
theorem stacked_events_broadcast (s : ProcessingState) :
    stacked_events [broadcast_stats s] = [] := by
  simp [stacked_events, broadcast_stats]

/-- `record_signal` emits no delta flips. -/
theorem flip_events_record_signal (s : ProcessingState) (now : Nat)
    (ty dir : String) (price : ℚ) :
    flip_events (record_signal s now ty dir price).2 = [] := by
  unfold record_signal
  dsimp only
  split_ifs <;>
    simp [flip_events_append, flip_events_detect_confluence, flip_events_broadcast]

/-- `record_signal` emits no stacked imbalances. -/
theorem stacked_events_record_signal (s : ProcessingState) (now : Nat)
    (ty dir : String) (price : ℚ) :
    stacked_events (record_signal s now ty dir price).2 = [] := by
  unfold record_signal
  dsimp only
  split_ifs <;>
    simp [stacked_events_append, stacked_events_detect_confluence,
      stacked_events_broadcast]

theorem flip_events_nil : flip_events [] = [] := rfl

theorem flip_events_cons_flip (d : DeltaFlip) (l : List WsMessage) :
    flip_events (WsMessage.deltaFlip d :: l) = d :: flip_events l := by
  simp [flip_events]

theorem flip_events_cons_stacked (e : StackedImbalance) (l : List WsMessage) :
    flip_events (WsMessage.stackedImbalance e :: l) = flip_events l := by
  simp [flip_events]

theorem flip_events_cons_absorption (e : AbsorptionEvent) (l : List WsMessage) :
    flip_events (WsMessage.absorption e :: l) = flip_events l := by
  simp [flip_events]

theorem flip_events_cons_zones (zs : List AbsorptionZone) (l : List WsMessage) :
    flip_events (WsMessage.absorptionZones zs :: l) = flip_events l := by
  simp [flip_events]

theorem stacked_events_nil : stacked_events [] = [] := rfl

theorem stacked_events_cons_stacked (e : StackedImbalance) (l : List WsMessage) :
    stacked_events (WsMessage.stackedImbalance e :: l) = e :: stacked_events l := by
  simp [stacked_events]

theorem stacked_events_cons_absorption (e : AbsorptionEvent) (l : List WsMessage) :
    stacked_events (WsMessage.absorption e :: l) = stacked_events l := by
  simp [stacked_events]

/-- `detect_stacked_imbalances` emits no delta flips. -/
theorem stacked_no_flip (s : ProcessingState) (now : Nat) :
    flip_events (detect_stacked_imbalances s now).2 = [] := by
  unfold detect_stacked_imbalances
  dsimp only
  split_ifs <;> try rfl
  rcases (best_streak_of s.volume_profile).1 with _ | side <;> dsimp only
  · rfl
  · split_ifs <;>
      simp [flip_events_nil, flip_events_cons_stacked, flip_events_record_signal]

/-- `absorption_step` emits no delta flips. -/
theorem absorption_no_flip (s : ProcessingState) (now : Nat) (delta : Int)
    (avg_price : ℚ) :
    flip_events (absorption_step s now delta avg_price).2 = [] := by
  unfold absorption_step
  rcases s.window_first_price with _ | fp <;> rcases s.window_last_price with _ | lp <;>
    dsimp only <;>
    try rfl
  split_ifs <;>
    simp [flip_events_nil, flip_events_cons_absorption, flip_events_record_signal]

/-- The end-of-tick zone list emits no delta flips. -/
theorem zones_no_flip (s : ProcessingState) :
    flip_events (active_zones_msg s) = [] := by
  unfold active_zones_msg
  dsimp only
  split_ifs <;> simp [flip_events]

theorem flip_events_cons_bubble (b : Bubble) (l : List WsMessage) :
    flip_events (WsMessage.bubble b :: l) = flip_events l := by
  simp [flip_events]

theorem flip_events_cons_cvd (c : CVDPoint) (l : List WsMessage) :
    flip_events (WsMessage.cvdPoint c :: l) = flip_events l := by
  simp [flip_events]

/-- `detect_confluence` leaves the aggregation core of the state untouched
(everything except the confluence cooldown, the signal history and the
recent-signal list). -/
theorem detect_confluence_fields (s : ProcessingState) (now : Nat) (price : ℚ) :
    (detect_confluence s now price).1.cvd = s.cvd ∧
    (detect_confluence s now price).1.cvd_5s_ago = s.cvd_5s_ago ∧
    (detect_confluence s now price).1.prev_cvd_sign = s.prev_cvd_sign ∧
    (detect_confluence s now price).1.last_delta_flip_time = s.last_delta_flip_time ∧
    (detect_confluence s now price).1.last_stacked_imbalance_time =
      s.last_stacked_imbalance_time ∧
    (detect_confluence s now price).1.last_stacked_imbalance_side =
      s.last_stacked_imbalance_side ∧
    (detect_confluence s now price).1.absorption_zones = s.absorption_zones ∧
    (detect_confluence s now price).1.volume_profile = s.volume_profile ∧
    (detect_confluence s now price).1.trade_buffer = s.trade_buffer ∧
    (detect_confluence s now price).1.volume_history = s.volume_history ∧
    (detect_confluence s now price).1.cvd_history = s.cvd_history ∧
    (detect_confluence s now price).1.window_first_price = s.window_first_price ∧
    (detect_confluence s now price).1.window_last_price = s.window_last_price := by
  unfold detect_confluence
  dsimp only
  split_ifs <;> simp

/-- `record_signal` leaves the aggregation core of the state untouched. -/
theorem record_signal_fields (s : ProcessingState) (now : Nat)
    (ty dir : String) (price : ℚ) :
    (record_signal s now ty dir price).1.cvd = s.cvd ∧
    (record_signal s now ty dir price).1.cvd_5s_ago = s.cvd_5s_ago ∧
    (record_signal s now ty dir price).1.prev_cvd_sign = s.prev_cvd_sign ∧
    (record_signal s now ty dir price).1.last_delta_flip_time = s.last_delta_flip_time ∧
    (record_signal s now ty dir price).1.last_stacked_imbalance_time =
      s.last_stacked_imbalance_time ∧
    (record_signal s now ty dir price).1.last_stacked_imbalance_side =
      s.last_stacked_imbalance_side ∧
    (record_signal s now ty dir price).1.absorption_zones = s.absorption_zones ∧
    (record_signal s now ty dir price).1.volume_profile = s.volume_profile ∧
    (record_signal s now ty dir price).1.trade_buffer = s.trade_buffer ∧
    (record_signal s now ty dir price).1.volume_history = s.volume_history ∧
    (record_signal s now ty dir price).1.cvd_history = s.cvd_history ∧
    (record_signal s now ty dir price).1.window_first_price = s.window_first_price ∧
    (record_signal s now ty dir price).1.window_last_price = s.window_last_price := by
  unfold record_signal
  dsimp only
  split_ifs <;> simp [update_signal_outcomes, detect_confluence_fields, rs_mid]

/-- `detect_stacked_imbalances` changes only its own cooldown fields and the
signal-recording layer. -/
theorem detect_stacked_fields (s : ProcessingState) (now : Nat) :
    (detect_stacked_imbalances s now).1.cvd = s.cvd ∧
    (detect_stacked_imbalances s now).1.cvd_5s_ago = s.cvd_5s_ago ∧
    (detect_stacked_imbalances s now).1.prev_cvd_sign = s.prev_cvd_sign ∧
    (detect_stacked_imbalances s now).1.last_delta_flip_time = s.last_delta_flip_time ∧
    (detect_stacked_imbalances s now).1.absorption_zones = s.absorption_zones ∧
    (detect_stacked_imbalances s now).1.volume_profile = s.volume_profile ∧
    (detect_stacked_imbalances s now).1.trade_buffer = s.trade_buffer ∧
    (detect_stacked_imbalances s now).1.volume_history = s.volume_history ∧
    (detect_stacked_imbalances s now).1.cvd_history = s.cvd_history ∧
    (detect_stacked_imbalances s now).1.window_first_price = s.window_first_price ∧
    (detect_stacked_imbalances s now).1.window_last_price = s.window_last_price := by
  unfold detect_stacked_imbalances
  dsimp only
  split_ifs <;> try simp
  rcases (best_streak_of s.volume_profile).1 with _ | side <;> dsimp only
  · simp
  · split_ifs <;> simp [record_signal_fields]

/-- `absorption_step` changes only the zone registry and the
signal-recording layer. -/
theorem absorption_fields (s : ProcessingState) (now : Nat) (delta : Int)
    (avg_price : ℚ) :
    (absorption_step s now delta avg_price).1.cvd = s.cvd ∧
    (absorption_step s now delta avg_price).1.cvd_5s_ago = s.cvd_5s_ago ∧
    (absorption_step s now delta avg_price).1.prev_cvd_sign = s.prev_cvd_sign ∧
    (absorption_step s now delta avg_price).1.last_delta_flip_time =
      s.last_delta_flip_time ∧
    (absorption_step s now delta avg_price).1.last_stacked_imbalance_time =
      s.last_stacked_imbalance_time ∧
    (absorption_step s now delta avg_price).1.last_stacked_imbalance_side =
      s.last_stacked_imbalance_side ∧
    (absorption_step s now delta avg_price).1.volume_profile = s.volume_profile ∧
    (absorption_step s now delta avg_price).1.trade_buffer = s.trade_buffer ∧
    (absorption_step s now delta avg_price).1.volume_history = s.volume_history ∧
    (absorption_step s now delta avg_price).1.cvd_history = s.cvd_history ∧
    (absorption_step s now delta avg_price).1.window_first_price =
      s.window_first_price ∧
    (absorption_step s now delta avg_price).1.window_last_price =
      s.window_last_price := by
  unfold absorption_step
  rcases hfp : s.window_first_price with _ | fp <;>
    rcases hlp : s.window_last_price with _ | lp <;>
    dsimp only <;>
    try (simp [hfp, hlp]; done)
  split_ifs <;> simp [record_signal_fields, hfp, hlp]

/-! ### C4: the first tick's `cvd_5s_ago` is the current CVD, not 0 -/

/-- Counterexample to C4: on the very first tick (empty `cvd_history`,
`prev_cvd_sign = 0`) after ingesting a single buy of 10, `cvd_5s_ago` ends
up as the current CVD (10), not 0: the empty-history fallback in
`cleanup_cvd_history` is `self.cvd`, which already includes the buffered
trades. -/
theorem first_tick_cvd_counterexample :
    (mkState 0).cvd_history = [] ∧ (mkState 0).prev_cvd_sign = 0 ∧
    (run (mkState 0) [Op.ingest ⟨"NQ", 100, 10, "buy", 0⟩, Op.tick 1000]).1.cvd_5s_ago = 10 ∧
    ¬(run (mkState 0) [Op.ingest ⟨"NQ", 100, 10, "buy", 0⟩, Op.tick 1000]).1.cvd_5s_ago = 0 := by
  decide

set_option maxHeartbeats 2000000 in
/-- C4 (amended).  On the first tick that processes trades (empty
`cvd_history`, `prev_cvd_sign = 0`), `cvd_5s_ago` equals the current CVD
(the fallback of `cleanup_cvd_history` on an empty history — the buffered
trades are already in `cvd`), and no DeltaFlip can be emitted on that
tick. -/
theorem first_tick_cvd_fallback (s : ProcessingState) (now : Nat)
    (hhist : s.cvd_history = []) (hsign : s.prev_cvd_sign = 0)
    (hbuf : s.trade_buffer ≠ []) :
    (process_buffer s now).1.cvd_5s_ago = s.cvd ∧
    flip_times (process_buffer s now).2 = [] := by
  unfold process_buffer
  rw [if_neg hbuf]
  dsimp only
  rw [show (cleanup_cvd_history { s with
        absorption_zones := cleanup_old_zones s.absorption_zones now
        volume_history := cleanup_volume_history s.volume_history now } now).prev_cvd_sign
      = 0 from hsign]
  simp only [ne_eq, not_true_eq_false, false_and, if_false]
  constructor
  · split_ifs <;>
      simp [absorption_fields, detect_stacked_fields, cleanup_cvd_history, hhist,
        latest_by_ts]
  · split_ifs <;>
      simp [flip_times, flip_events_cons_bubble, flip_events_cons_cvd,
        flip_events_append, flip_events_nil, stacked_no_flip, absorption_no_flip,
        zones_no_flip]

/-- Witness for C4 applied at the concrete first-tick state. -/
theorem first_tick_cvd_fallback_witness :
    ((add_trade (mkState 0) ⟨"NQ", 100, 10, "buy", 0⟩).cvd_history = [] ∧
      (add_trade (mkState 0) ⟨"NQ", 100, 10, "buy", 0⟩).prev_cvd_sign = 0 ∧
      (add_trade (mkState 0) ⟨"NQ", 100, 10, "buy", 0⟩).trade_buffer ≠ []) ∧
    ((process_buffer (add_trade (mkState 0) ⟨"NQ", 100, 10, "buy", 0⟩) 1000).1.cvd_5s_ago =
      (add_trade (mkState 0) ⟨"NQ", 100, 10, "buy", 0⟩).cvd ∧
     flip_times (process_buffer (add_trade (mkState 0) ⟨"NQ", 100, 10, "buy", 0⟩) 1000).2 = []) :=
  ⟨⟨by decide, by decide, by decide⟩,
    first_tick_cvd_fallback (add_trade (mkState 0) ⟨"NQ", 100, 10, "buy", 0⟩) 1000
      (by decide) (by decide) (by decide)⟩

/-! ### C5: the delta-flip cooldown is strict (`> 2000`, not `≥ 2000`) -/

theorem cleanup_cvd_history_trade_buffer (s : ProcessingState) (now : Nat) :
    (cleanup_cvd_history s now).trade_buffer = s.trade_buffer := rfl

theorem cleanup_cvd_history_prev_sign (s : ProcessingState) (now : Nat) :
    (cleanup_cvd_history s now).prev_cvd_sign = s.prev_cvd_sign := rfl

theorem cleanup_cvd_history_cvd (s : ProcessingState) (now : Nat) :
    (cleanup_cvd_history s now).cvd = s.cvd := rfl

theorem cleanup_cvd_history_last_flip (s : ProcessingState) (now : Nat) :
    (cleanup_cvd_history s now).last_delta_flip_time = s.last_delta_flip_time := rfl

/-- Counterexample to C5: a reachable execution in which all of the claim's
conditions hold with `now − last_flip = 2000` exactly (so the claim's
`≥ 2000` reading demands an emission) and yet no DeltaFlip is emitted: the
source requires strictly more than 2000 ms.  Trace: buy 30 → tick@5000
(prev sign becomes +1), sell 60 → tick@10000 (flip emitted, last = 10000),
buy 60 → tick@12000 (sign −1 → +1, gap exactly 2000, no flip). -/
theorem delta_flip_boundary_counterexample :
    ((run (mkState 0) [Op.ingest ⟨"NQ", 100, 30, "buy", 0⟩, Op.tick 5000,
        Op.ingest ⟨"NQ", 100, 60, "sell", 0⟩, Op.tick 10000]).1.prev_cvd_sign = -1) ∧
    (cvd_sign (add_trade (run (mkState 0) [Op.ingest ⟨"NQ", 100, 30, "buy", 0⟩,
        Op.tick 5000, Op.ingest ⟨"NQ", 100, 60, "sell", 0⟩, Op.tick 10000]).1
        ⟨"NQ", 100, 60, "buy", 0⟩).cvd = 1) ∧
    (12000 - (run (mkState 0) [Op.ingest ⟨"NQ", 100, 30, "buy", 0⟩, Op.tick 5000,
        Op.ingest ⟨"NQ", 100, 60, "sell", 0⟩, Op.tick 10000]).1.last_delta_flip_time
      = 2000) ∧
    flip_events (process_buffer (add_trade (run (mkState 0)
        [Op.ingest ⟨"NQ", 100, 30, "buy", 0⟩, Op.tick 5000,
         Op.ingest ⟨"NQ", 100, 60, "sell", 0⟩, Op.tick 10000]).1
        ⟨"NQ", 100, 60, "buy", 0⟩) 12000).2 = [] := by
  decide

set_option maxHeartbeats 2000000 in
/-- C5 (amended).  On every tick with a non-empty buffer of positive total
volume, a DeltaFlip is emitted iff `prev_sign ≠ 0 ∧ cur_sign ≠ 0 ∧
prev_sign ≠ cur_sign ∧ now − last_flip > 2000` (strictly greater — the
source compares `saturating_sub(..) > cooldown_ms`); its direction is
bullish exactly when `cur_sign = +1`, `cvd_before` is the updated
`cvd_5s_ago`, `cvd_after` is the current CVD, its timestamp is `now`, and
`prev_cvd_sign` is set to `cur_sign` afterwards in every case. -/
theorem delta_flip_iff_strict (s : ProcessingState) (now : Nat)
    (hbuf : s.trade_buffer ≠ [])
    (htot : ¬(buffer_buy_volume s.trade_buffer + buffer_sell_volume s.trade_buffer = 0)) :
    (flip_events (process_buffer s now).2 ≠ [] ↔
      (s.prev_cvd_sign ≠ 0 ∧ cvd_sign s.cvd ≠ 0 ∧
        s.prev_cvd_sign ≠ cvd_sign s.cvd ∧ now - s.last_delta_flip_time > 2000)) ∧
    (∀ d ∈ flip_events (process_buffer s now).2,
      d.timestamp = now ∧
      d.direction = (if cvd_sign s.cvd > 0 then "bullish" else "bearish") ∧
      d.cvd_before = (process_buffer s now).1.cvd_5s_ago ∧
      d.cvd_after = s.cvd) ∧
    (process_buffer s now).1.prev_cvd_sign = cvd_sign s.cvd := by
  unfold process_buffer
  rw [if_neg hbuf]
  dsimp only
  simp only [cleanup_cvd_history_trade_buffer, cleanup_cvd_history_prev_sign,
    cleanup_cvd_history_cvd, cleanup_cvd_history_last_flip]
  rw [if_neg htot]
  dsimp only
  by_cases hC : s.prev_cvd_sign ≠ 0 ∧ cvd_sign s.cvd ≠ 0 ∧
      s.prev_cvd_sign ≠ cvd_sign s.cvd ∧ now - s.last_delta_flip_time > 2000
  · rw [if_pos hC]
    refine ⟨?_, ?_, ?_⟩
    · constructor
      · intro _
        exact hC
      · intro _
        simp [flip_events_cons_bubble, flip_events_cons_cvd, flip_events_cons_flip]
    · intro d hd
      have hd2 : d =
          ({ timestamp := now, flip_type := "zero_cross",
             direction := (if cvd_sign s.cvd > 0 then "bullish" else "bearish"),
             cvd_before := (cleanup_cvd_history { s with
               absorption_zones := cleanup_old_zones s.absorption_zones now,
               volume_history := cleanup_volume_history s.volume_history now } now).cvd_5s_ago,
             cvd_after := s.cvd, x := 23 / 25 } : DeltaFlip) := by
        revert hd
        simp [flip_events_cons_bubble, flip_events_cons_cvd, flip_events_cons_flip,
          flip_events_append, flip_events_nil, flip_events_record_signal,
          stacked_no_flip, absorption_no_flip, zones_no_flip]
      subst hd2
      refine ⟨rfl, rfl, ?_, rfl⟩
      simp [absorption_fields, detect_stacked_fields, record_signal_fields]
    · simp [absorption_fields, detect_stacked_fields]
  · rw [if_neg hC]
    refine ⟨?_, ?_, ?_⟩
    · constructor
      · intro hne
        exact absurd (by
          simp [flip_events_cons_bubble, flip_events_cons_cvd, flip_events_append,
            flip_events_nil, stacked_no_flip, absorption_no_flip, zones_no_flip]) hne
      · intro hcond
        exact absurd hcond hC
    · intro d hd
      exfalso
      revert hd
      simp [flip_events_cons_bubble, flip_events_cons_cvd, flip_events_append,
        flip_events_nil, stacked_no_flip, absorption_no_flip, zones_no_flip]
    · simp [absorption_fields, detect_stacked_fields]

/-- Witness for C5 at the boundary-counterexample's third tick (where the
iff's right side is false because the gap is exactly 2000). -/
theorem delta_flip_iff_strict_witness :
    ((add_trade (run (mkState 0) [Op.ingest ⟨"NQ", 100, 30, "buy", 0⟩, Op.tick 5000,
        Op.ingest ⟨"NQ", 100, 60, "sell", 0⟩, Op.tick 10000]).1
        ⟨"NQ", 100, 60, "buy", 0⟩).trade_buffer ≠ [] ∧
     ¬(buffer_buy_volume (add_trade (run (mkState 0)
        [Op.ingest ⟨"NQ", 100, 30, "buy", 0⟩, Op.tick 5000,
         Op.ingest ⟨"NQ", 100, 60, "sell", 0⟩, Op.tick 10000]).1
        ⟨"NQ", 100, 60, "buy", 0⟩).trade_buffer +
       buffer_sell_volume (add_trade (run (mkState 0)
        [Op.ingest ⟨"NQ", 100, 30, "buy", 0⟩, Op.tick 5000,
         Op.ingest ⟨"NQ", 100, 60, "sell", 0⟩, Op.tick 10000]).1
        ⟨"NQ", 100, 60, "buy", 0⟩).trade_buffer = 0)) ∧
    ((process_buffer (add_trade (run (mkState 0)
        [Op.ingest ⟨"NQ", 100, 30, "buy", 0⟩, Op.tick 5000,
         Op.ingest ⟨"NQ", 100, 60, "sell", 0⟩, Op.tick 10000]).1
        ⟨"NQ", 100, 60, "buy", 0⟩) 12000).1.prev_cvd_sign =
      cvd_sign (add_trade (run (mkState 0)
        [Op.ingest ⟨"NQ", 100, 30, "buy", 0⟩, Op.tick 5000,
         Op.ingest ⟨"NQ", 100, 60, "sell", 0⟩, Op.tick 10000]).1
        ⟨"NQ", 100, 60, "buy", 0⟩).cvd) :=
  ⟨⟨by decide, by decide⟩,
    (delta_flip_iff_strict (add_trade (run (mkState 0)
        [Op.ingest ⟨"NQ", 100, 30, "buy", 0⟩, Op.tick 5000,
         Op.ingest ⟨"NQ", 100, 60, "sell", 0⟩, Op.tick 10000]).1
        ⟨"NQ", 100, 60, "buy", 0⟩) 12000 (by decide) (by decide)).2.2⟩

/-! ### C3: outcome filling happens on signal recording, not on every tick -/

/-- A record's 5-minute price and outcome are filled together and
consistently: the outcome is the classification of the move measured at the
fill-time current price. -/
def outcome_consistent (r : SignalRecord) : Prop :=
  (r.price_after_5m = none → r.outcome = none) ∧
  ∀ p, r.price_after_5m = some p →
    r.outcome = some (classify_outcome r.direction (p - r.price))

/-- Counterexample to C3: a reachable execution in which a tick leaves a
60-second-old record unfilled, because `update_signal_outcomes` is only
invoked from `record_signal` (i.e. when some signal fires), not on every
tick.  Trace: buy 30 → tick@1000 (absorption signal recorded at 1000), then
sell 5 → tick@71000 (no detector fires, so the record — now 70 s old —
still has `price_after_1m = none`). -/
theorem signal_outcomes_tick_counterexample :
    ((run (mkState 0) [Op.ingest ⟨"NQ", 100, 30, "buy", 0⟩, Op.tick 1000,
        Op.ingest ⟨"NQ", 100, 5, "sell", 0⟩, Op.tick 71000]).1.signal_history =
      [⟨1000, 100, "absorption", "bearish", none, none, none⟩]) ∧
    71000 - 1000 ≥ 60000 := by
  decide

/-- A freshly created signal record (all three optional fields `none`) is
trivially outcome-consistent. -/
theorem outcome_consistent_fresh (ts : Nat) (price : ℚ) (ty dir : String) :
    outcome_consistent ⟨ts, price, ty, dir, none, none, none⟩ :=
  ⟨fun _ => rfl, fun _ hp => Option.noConfusion hp⟩

/-- `detect_confluence` either leaves the signal history unchanged or
appends one fresh confluence record. -/
theorem detect_confluence_history (s : ProcessingState) (now : Nat) (price : ℚ) :
    (detect_confluence s now price).1.signal_history = s.signal_history ∨
    ∃ d : String, (detect_confluence s now price).1.signal_history =
      s.signal_history ++ [⟨now, price, "confluence", d, none, none, none⟩] := by
  unfold detect_confluence
  dsimp only
  split_ifs <;>
    first
      | exact Or.inl rfl
      | exact Or.inr ⟨_, rfl⟩

/-- The contract of one `update_record` pass, given a consistent record. -/
theorem update_record_spec (now : Nat) (price : ℚ) (r : SignalRecord)
    (h : outcome_consistent r) :
    outcome_consistent (update_record now price r) ∧
    (update_record now price r).timestamp = r.timestamp ∧
    (60000 ≤ now - r.timestamp → (update_record now price r).price_after_1m.isSome) ∧
    (300000 ≤ now - r.timestamp →
      ∃ p, (update_record now price r).price_after_5m = some p ∧
        (update_record now price r).outcome =
          some (classify_outcome (update_record now price r).direction
            (p - (update_record now price r).price))) := by
  obtain ⟨hc1, hc2⟩ := h
  unfold update_record
  dsimp only
  split_ifs with h1 h2 h3
  · refine ⟨⟨by simp, ?_⟩, by simp, by simp, fun _ => ⟨price, by simp, by simp⟩⟩
    intro p hp
    simp only [Option.some.injEq] at hp
    subst hp
    simp
  · refine ⟨⟨by simpa using hc1, ?_⟩, by simp, by simp, ?_⟩
    · intro p hp
      simpa using hc2 p (by simpa using hp)
    · intro hage
      rcases h5 : r.price_after_5m with _ | p
      · exact absurd ⟨by simp [h5], by simpa using hage⟩ h2
      · refine ⟨p, by simp, ?_⟩
        simpa using hc2 p h5
  · refine ⟨⟨by simp, ?_⟩, by simp, ?_, fun _ => ⟨price, by simp, by simp⟩⟩
    · intro p hp
      simp only [Option.some.injEq] at hp
      subst hp
      simp
    · intro hage
      rcases hm : r.price_after_1m with _ | q
      · exact absurd ⟨hm, hage⟩ h1
      · simp [hm]
  · refine ⟨⟨hc1, hc2⟩, rfl, ?_, ?_⟩
    · intro hage
      rcases hm : r.price_after_1m with _ | q
      · exact absurd ⟨hm, hage⟩ h1
      · simp [hm]
    · intro hage
      rcases h5 : r.price_after_5m with _ | p
      · exact absurd ⟨h5, hage⟩ h3
      · exact ⟨p, rfl, hc2 p h5⟩

/-- C3 (amended).  Outcome filling happens in `update_signal_outcomes`,
which the engine invokes from `record_signal` — i.e. whenever a signal is
emitted — and not on every tick.  After each such call, every retained
record whose age is ≥ 60 000 ms has `price_after_1m` set, and every record
whose age is ≥ 300 000 ms has `price_after_5m` set with its outcome
classified from `move = fill-time current_price − record.price` and
threshold 2.0 (bullish: move ≥ +2 win, move ≤ −2 loss, else breakeven;
bearish symmetric); the consistency is preserved across calls. -/
theorem signal_outcomes_on_record (s : ProcessingState) (now : Nat) (price : ℚ)
    (hinv : ∀ r ∈ s.signal_history, outcome_consistent r) :
    (∀ r ∈ (update_signal_outcomes s now price).signal_history,
      outcome_consistent r ∧
      (60000 ≤ now - r.timestamp → r.price_after_1m.isSome) ∧
      (300000 ≤ now - r.timestamp →
        ∃ p, r.price_after_5m = some p ∧
          r.outcome = some (classify_outcome r.direction (p - r.price)))) ∧
    (∀ ty dir : String, ∀ r ∈ (record_signal s now ty dir price).1.signal_history,
      (60000 ≤ now - r.timestamp → r.price_after_1m.isSome) ∧
      (300000 ≤ now - r.timestamp →
        r.price_after_5m.isSome ∧ r.outcome.isSome)) := by
  have core : ∀ hist : List SignalRecord, (∀ r ∈ hist, outcome_consistent r) →
      ∀ r ∈ (hist.map (update_record now price)).filter
        (fun r => r.timestamp ≥ now - 30 * 60 * 1000),
      outcome_consistent r ∧
      (60000 ≤ now - r.timestamp → r.price_after_1m.isSome) ∧
      (300000 ≤ now - r.timestamp →
        ∃ p, r.price_after_5m = some p ∧
          r.outcome = some (classify_outcome r.direction (p - r.price))) := by
    intro hist hhist r hr
    rw [List.mem_filter] at hr
    obtain ⟨hr1, -⟩ := hr
    rw [List.mem_map] at hr1
    obtain ⟨r0, hr0, hupd⟩ := hr1
    obtain ⟨ha, hts, hb, hc⟩ := update_record_spec now price r0 (hhist r0 hr0)
    subst hupd
    exact ⟨ha, fun h => hb (by omega), fun h => hc (by omega)⟩
  have hist_eq : ∀ ty dir : String, (record_signal s now ty dir price).1.signal_history =
      (((detect_confluence (rs_mid s now ty dir price) now price).1.signal_history).map
        (update_record now price)).filter
        (fun r => r.timestamp ≥ now - 30 * 60 * 1000) := by
    intro ty dir
    unfold record_signal
    dsimp only
    split_ifs <;> rfl
  constructor
  · intro r hr
    exact core s.signal_history hinv r hr
  · intro ty dir r hr
    have hext : ∀ q ∈ (detect_confluence (rs_mid s now ty dir price) now
        price).1.signal_history, outcome_consistent q := by
      rcases detect_confluence_history (rs_mid s now ty dir price) now price with
          h | ⟨d, h⟩ <;>
        rw [h] <;>
        intro q hq <;>
        simp only [rs_mid, List.mem_append, List.mem_singleton] at hq
      · rcases hq with hq | hq
        · exact hinv q hq
        · subst hq
          exact outcome_consistent_fresh now price ty dir
      · rcases hq with (hq | hq) | hq
        · exact hinv q hq
        · subst hq
          exact outcome_consistent_fresh now price ty dir
        · subst hq
          exact outcome_consistent_fresh now price "confluence" d
    rw [hist_eq ty dir] at hr
    obtain ⟨ha, hb, hc⟩ := core _ hext r hr
    refine ⟨hb, fun h => ?_⟩
    obtain ⟨p, hp5, hpo⟩ := hc h
    exact ⟨by simp [hp5], by simp [hpo]⟩

/-- Witness for C3 at the state left by the counterexample trace. -/
theorem signal_outcomes_on_record_witness :
    (∀ r ∈ (run (mkState 0) [Op.ingest ⟨"NQ", 100, 30, "buy", 0⟩, Op.tick 1000,
        Op.ingest ⟨"NQ", 100, 5, "sell", 0⟩, Op.tick 71000]).1.signal_history,
      outcome_consistent r) ∧
    (∀ r ∈ (update_signal_outcomes (run (mkState 0)
        [Op.ingest ⟨"NQ", 100, 30, "buy", 0⟩, Op.tick 1000,
         Op.ingest ⟨"NQ", 100, 5, "sell", 0⟩, Op.tick 71000]).1 71000 100).signal_history,
      outcome_consistent r ∧
      (60000 ≤ 71000 - r.timestamp → r.price_after_1m.isSome) ∧
      (300000 ≤ 71000 - r.timestamp →
        ∃ p, r.price_after_5m = some p ∧
          r.outcome = some (classify_outcome r.direction (p - r.price)))) :=
  have hinv : ∀ r ∈ (run (mkState 0) [Op.ingest ⟨"NQ", 100, 30, "buy", 0⟩,
      Op.tick 1000, Op.ingest ⟨"NQ", 100, 5, "sell", 0⟩,
      Op.tick 71000]).1.signal_history, outcome_consistent r := by
    intro r hr
    have : r = ⟨1000, 100, "absorption", "bearish", none, none, none⟩ := by
      revert hr
      have he : (run (mkState 0) [Op.ingest ⟨"NQ", 100, 30, "buy", 0⟩, Op.tick 1000,
          Op.ingest ⟨"NQ", 100, 5, "sell", 0⟩, Op.tick 71000]).1.signal_history =
          [⟨1000, 100, "absorption", "bearish", none, none, none⟩] := by decide
      rw [he]
      simp
    subst this
    exact ⟨fun _ => rfl, fun p hp => by simp at hp⟩
  ⟨hinv,
    (signal_outcomes_on_record (run (mkState 0)
      [Op.ingest ⟨"NQ", 100, 30, "buy", 0⟩, Op.tick 1000,
       Op.ingest ⟨"NQ", 100, 5, "sell", 0⟩, Op.tick 71000]).1 71000 100 hinv).1⟩

/-! ### C8: absorption-zone invariants -/

/-- The per-zone invariant of C8, bounded by a clock value `t`:
at least one event, `first_seen ≤ last_seen`, and `last_seen ≤ t`. -/
def zone_inv (t : Nat) (zones : List (Int × AbsorptionZoneInternal)) : Prop :=
  ∀ p ∈ zones, 1 ≤ p.2.event_count ∧ p.2.first_seen ≤ p.2.last_seen ∧
    p.2.last_seen ≤ t

theorem zone_inv_mono {t u : Nat} {zones : List (Int × AbsorptionZoneInternal)}
    (h : zone_inv t zones) (htu : t ≤ u) : zone_inv u zones := by
  intro p hp
  obtain ⟨h1, h2, h3⟩ := h p hp
  exact ⟨h1, h2, h3.trans htu⟩

theorem zone_inv_filter {t : Nat} {zones : List (Int × AbsorptionZoneInternal)}
    (f : Int × AbsorptionZoneInternal → Bool) (h : zone_inv t zones) :
    zone_inv t (zones.filter f) := by
  intro p hp
  exact h p (List.mem_filter.mp hp).1

theorem alookup_mem {α : Type} {k : Int} {l : List (Int × α)} {v : α}
    (h : alookup k l = some v) : (k, v) ∈ l := by
  induction l with
  | nil => simp [alookup] at h
  | cons hd tl ih =>
    rw [alookup] at h
    split_ifs at h with he
    · obtain ⟨k2, v2⟩ := hd
      obtain rfl : v2 = v := by simpa using h
      simp at he
      subst he
      exact List.mem_cons_self _ _
    · exact List.mem_cons_of_mem _ (ih h)

theorem mem_zone_upsert {k : Int} {z : AbsorptionZoneInternal}
    {zs : List (Int × AbsorptionZoneInternal)} :
    ∀ p ∈ zone_upsert k z zs, p ∈ zs ∨ p = (k, z) := by
  induction zs with
  | nil =>
    intro p hp
    simp [zone_upsert] at hp
    exact Or.inr hp
  | cons hd tl ih =>
    intro p hp
    obtain ⟨k2, z2⟩ := hd
    rw [zone_upsert] at hp
    split_ifs at hp with he
    · subst he
      rcases List.mem_cons.mp hp with h | h
      · exact Or.inr (by simpa using h)
      · exact Or.inl (List.mem_cons_of_mem _ h)
    · rcases List.mem_cons.mp hp with h | h
      · exact Or.inl (h ▸ List.mem_cons_self _ _)
      · rcases ih p h with h2 | h2
        · exact Or.inl (List.mem_cons_of_mem _ h2)
        · exact Or.inr h2

theorem mem_zone_set_peak {k : Int} {n : Nat}
    {zs : List (Int × AbsorptionZoneInternal)} :
    ∀ p ∈ zone_set_peak k n zs, ∃ q ∈ zs,
      p.2.event_count = q.2.event_count ∧ p.2.first_seen = q.2.first_seen ∧
      p.2.last_seen = q.2.last_seen := by
  induction zs with
  | nil =>
    intro p hp
    simp [zone_set_peak] at hp
  | cons hd tl ih =>
    intro p hp
    obtain ⟨k2, z2⟩ := hd
    rw [zone_set_peak] at hp
    split_ifs at hp with he
    · rcases List.mem_cons.mp hp with h | h
      · exact ⟨(k2, z2), List.mem_cons_self _ _, by simp [h]⟩
      · exact ⟨p, List.mem_cons_of_mem _ h, rfl, rfl, rfl⟩
    · rcases List.mem_cons.mp hp with h | h
      · exact ⟨p, h ▸ List.mem_cons_self _ _, rfl, rfl, rfl⟩
      · obtain ⟨q, hq, he⟩ := ih p h
        exact ⟨q, List.mem_cons_of_mem _ hq, he⟩

theorem alookup_zone_upsert_self (k : Int) (z : AbsorptionZoneInternal)
    (zs : List (Int × AbsorptionZoneInternal)) :
    alookup k (zone_upsert k z zs) = some z := by
  induction zs with
  | nil => simp [zone_upsert, alookup]
  | cons hd tl ih =>
    obtain ⟨k2, z2⟩ := hd
    rw [zone_upsert]
    split_ifs with he
    · simp [alookup, he]
    · simp [alookup, he, ih]

theorem alookup_zone_upsert_ne {k k2 : Int} (hne : k ≠ k2)
    (z : AbsorptionZoneInternal) (zs : List (Int × AbsorptionZoneInternal)) :
    alookup k (zone_upsert k2 z zs) = alookup k zs := by
  induction zs with
  | nil => simp [zone_upsert, alookup, hne]
  | cons hd tl ih =>
    obtain ⟨k3, z3⟩ := hd
    rw [zone_upsert]
    split_ifs with he
    · subst he
      simp [alookup, hne]
    · by_cases hk : k = k3 <;> simp [alookup, hk, ih]

theorem alookup_zone_set_peak_self (k : Int) (n : Nat)
    (zs : List (Int × AbsorptionZoneInternal)) :
    alookup k (zone_set_peak k n zs) =
      (alookup k zs).map fun z => { z with peak_strength := n } := by
  induction zs with
  | nil => simp [zone_set_peak, alookup]
  | cons hd tl ih =>
    obtain ⟨k2, z2⟩ := hd
    rw [zone_set_peak]
    split_ifs with he
    · simp [alookup, he]
    · simp [alookup, he, ih]

theorem zone_inv_upsert {now : Nat} {zs : List (Int × AbsorptionZoneInternal)}
    {k : Int} {z : AbsorptionZoneInternal} (h : zone_inv now zs)
    (hz : 1 ≤ z.event_count ∧ z.first_seen ≤ z.last_seen ∧ z.last_seen ≤ now) :
    zone_inv now (zone_upsert k z zs) := by
  intro p hp
  rcases mem_zone_upsert p hp with hm | hm
  · exact h p hm
  · rw [hm]
    exact hz

theorem zone_inv_set_peak {now : Nat} {zs : List (Int × AbsorptionZoneInternal)}
    (k : Int) (n : Nat) (h : zone_inv now zs) :
    zone_inv now (zone_set_peak k n zs) := by
  intro p hp
  obtain ⟨q, hq, he1, he2, he3⟩ := mem_zone_set_peak p hp
  obtain ⟨h1, h2, h3⟩ := h q hq
  exact ⟨he1 ▸ h1, by omega, by omega⟩

/-- The `or_insert_with` default (or the stored zone) was first seen no
later than `now`. -/
theorem getD_first_seen_le {now : Nat} {zs : List (Int × AbsorptionZoneInternal)}
    (h : zone_inv now zs) (k : Int) (p : ℚ) (pk : Int) (ty : String) :
    ((alookup k zs).getD ⟨p, pk, ty, 0, 0, now, now, 0⟩).first_seen ≤ now := by
  rcases hl : alookup k zs with _ | z0
  · simp
  · obtain ⟨-, h2, h3⟩ := h _ (alookup_mem hl)
    simpa using h2.trans h3

/-- The zone registry after `absorption_step` still satisfies the invariant
(with the tick's clock as bound). -/
theorem absorption_step_zone_inv (s : ProcessingState) (now : Nat)
    (delta : Int) (avg_price : ℚ) (h : zone_inv now s.absorption_zones) :
    zone_inv now (absorption_step s now delta avg_price).1.absorption_zones := by
  unfold absorption_step
  rcases hfp : s.window_first_price with _ | fp <;>
    rcases hlp : s.window_last_price with _ | lp <;>
    dsimp only <;>
    try exact h
  split_ifs <;>
    simp only [record_signal_fields] <;>
    try exact h
  all_goals
    first
      | exact zone_inv_set_peak _ _
          (zone_inv_upsert h
            ⟨by simp, by simpa using getD_first_seen_le h _ _ _ _, by simp⟩)
      | exact zone_inv_upsert h
          ⟨by simp, by simpa using getD_first_seen_le h _ _ _ _, by simp⟩

theorem alookup_zone_set_peak_ne {k k2 : Int} (hne : k ≠ k2) (n : Nat)
    (zs : List (Int × AbsorptionZoneInternal)) :
    alookup k (zone_set_peak k2 n zs) = alookup k zs := by
  induction zs with
  | nil => simp [zone_set_peak, alookup]
  | cons hd tl ih =>
    obtain ⟨k3, z3⟩ := hd
    rw [zone_set_peak]
    split_ifs with he
    · subst he
      simp [alookup, hne]
    · by_cases hk : k = k3 <;> simp [alookup, hk, ih]

/-- A zone that survives `absorption_step` never loses peak strength. -/
theorem absorption_step_peak (s : ProcessingState) (now : Nat) (delta : Int)
    (avg_price : ℚ) (k : Int) (z z2 : AbsorptionZoneInternal)
    (h1 : alookup k s.absorption_zones = some z)
    (h2 : alookup k (absorption_step s now delta avg_price).1.absorption_zones =
      some z2) :
    z.peak_strength ≤ z2.peak_strength := by
  unfold absorption_step at h2
  rcases hfp : s.window_first_price with _ | fp <;>
    rcases hlp : s.window_last_price with _ | lp <;>
    rw [hfp, hlp] at h2 <;>
    dsimp only at h2 <;>
    try (rw [h1] at h2; cases h2; exact le_refl _)
  split_ifs at h2 <;>
    simp only [record_signal_fields] at h2 <;>
    try (rw [h1] at h2; cases h2; exact le_refl _)
  all_goals by_cases hk : k = price_key_of avg_price
  all_goals
    first
      | (subst hk
         have hz0 : ∀ d : AbsorptionZoneInternal,
             (alookup (price_key_of avg_price) s.absorption_zones).getD d = z := by
           intro d
           rw [h1]
           rfl
         rw [alookup_zone_set_peak_self, alookup_zone_upsert_self] at h2
         simp only [hz0, Option.map_some', Option.some.injEq] at h2
         subst h2
         simp only [hz0] at *
         simp only [gt_iff_lt] at *
         exact le_of_lt (by assumption))
      | (subst hk
         have hz0 : ∀ d : AbsorptionZoneInternal,
             (alookup (price_key_of avg_price) s.absorption_zones).getD d = z := by
           intro d
           rw [h1]
           rfl
         rw [alookup_zone_upsert_self] at h2
         simp only [hz0, Option.some.injEq] at h2
         subst h2
         simp only [hz0]
         exact le_refl _)
      | (rw [alookup_zone_set_peak_ne hk, alookup_zone_upsert_ne hk, h1] at h2
         cases h2
         exact le_refl _)
      | (rw [alookup_zone_upsert_ne hk, h1] at h2
         cases h2
         exact le_refl _)

theorem cleanup_cvd_history_zones (s : ProcessingState) (now : Nat) :
    (cleanup_cvd_history s now).absorption_zones = s.absorption_zones := rfl

set_option maxHeartbeats 2000000 in
/-- C8.  After an ingest (`add_trade`) or a tick (`process_buffer`), every
retained absorption zone has `event_count ≥ 1` and
`first_seen ≤ last_seen ≤ clock`; and a zone that survives the tick's
eviction never loses peak strength (the registry only ever replaces it by
the strictly larger current strength). -/
theorem zone_invariants (s : ProcessingState) (t now : Nat) (tr : Trade)
    (hinv : zone_inv t s.absorption_zones) (htn : t ≤ now) :
    zone_inv t (add_trade s tr).absorption_zones ∧
    zone_inv now (process_buffer s now).1.absorption_zones ∧
    (s.trade_buffer ≠ [] →
      ∀ k z z2, alookup k (cleanup_old_zones s.absorption_zones now) = some z →
        alookup k (process_buffer s now).1.absorption_zones = some z2 →
        z.peak_strength ≤ z2.peak_strength) := by
  refine ⟨hinv, ?_, ?_⟩
  · by_cases hbuf : s.trade_buffer = []
    · rw [process_buffer_of_empty s now hbuf]
      exact zone_inv_mono hinv htn
    · unfold process_buffer
      rw [if_neg hbuf]
      dsimp only
      split_ifs <;>
        first
          | exact zone_inv_filter _ (zone_inv_mono hinv htn)
          | (apply absorption_step_zone_inv
             simp only [detect_stacked_fields, record_signal_fields,
               cleanup_cvd_history_zones]
             exact zone_inv_filter _ (zone_inv_mono hinv htn))
  · intro hbuf k z z2 hcl hpost
    unfold process_buffer at hpost
    rw [if_neg hbuf] at hpost
    dsimp only at hpost
    split_ifs at hpost <;>
      first
        | (simp only [cleanup_cvd_history_zones] at hpost
           rw [hcl] at hpost
           cases hpost
           exact le_refl _)
        | (refine absorption_step_peak _ now _ _ k z z2 ?_ hpost
           simp only [detect_stacked_fields, record_signal_fields,
             cleanup_cvd_history_zones]
           exact hcl)

/-- Witness for C8 at a concrete state with one stored zone and one
buffered trade. -/
theorem zone_invariants_witness :
    (zone_inv 1000 ({ mkState 0 with
        absorption_zones := [(400, ⟨100, 400, "buying", 30, 1, 500, 1000, 1⟩)],
        trade_buffer := [⟨"NQ", 100, 10, "buy", 0⟩] } :
        ProcessingState).absorption_zones ∧ 1000 ≤ 2000) ∧
    (zone_inv 1000 (add_trade { mkState 0 with
        absorption_zones := [(400, ⟨100, 400, "buying", 30, 1, 500, 1000, 1⟩)],
        trade_buffer := [⟨"NQ", 100, 10, "buy", 0⟩] }
        ⟨"NQ", 101, 5, "sell", 7⟩).absorption_zones ∧
      zone_inv 2000 (process_buffer { mkState 0 with
        absorption_zones := [(400, ⟨100, 400, "buying", 30, 1, 500, 1000, 1⟩)],
        trade_buffer := [⟨"NQ", 100, 10, "buy", 0⟩] } 2000).1.absorption_zones ∧
      (({ mkState 0 with
          absorption_zones := [(400, ⟨100, 400, "buying", 30, 1, 500, 1000, 1⟩)],
          trade_buffer := [⟨"NQ", 100, 10, "buy", 0⟩] } :
          ProcessingState).trade_buffer ≠ [] →
        ∀ k z z2, alookup k (cleanup_old_zones ({ mkState 0 with
            absorption_zones := [(400, ⟨100, 400, "buying", 30, 1, 500, 1000, 1⟩)],
            trade_buffer := [⟨"NQ", 100, 10, "buy", 0⟩] } :
            ProcessingState).absorption_zones 2000) = some z →
          alookup k (process_buffer { mkState 0 with
            absorption_zones := [(400, ⟨100, 400, "buying", 30, 1, 500, 1000, 1⟩)],
            trade_buffer := [⟨"NQ", 100, 10, "buy", 0⟩] } 2000).1.absorption_zones =
            some z2 →
          z.peak_strength ≤ z2.peak_strength)) :=
  ⟨⟨by intro p hp; simp at hp; subst hp; exact ⟨by decide, by decide, by decide⟩,
      by decide⟩,
    zone_invariants { mkState 0 with
        absorption_zones := [(400, ⟨100, 400, "buying", 30, 1, 500, 1000, 1⟩)],
        trade_buffer := [⟨"NQ", 100, 10, "buy", 0⟩] } 1000 2000
      ⟨"NQ", 101, 5, "sell", 7⟩
      (by intro p hp; simp at hp; subst hp; exact ⟨by decide, by decide, by decide⟩)
      (by decide)⟩

/-! ### C7: emission cooldowns -/

/-- One step's contract for the delta-flip cooldown: either nothing was
emitted and the cooldown timestamp is untouched, or exactly one flip was
emitted at `now`, strictly more than 2000 ms after the previous timestamp,
which is then advanced to `now`. -/
def FlipSpec (pre post : ProcessingState) (now : Nat) (msgs : List WsMessage) :
    Prop :=
  (flip_times msgs = [] ∧
    post.last_delta_flip_time = pre.last_delta_flip_time) ∨
  (flip_times msgs = [now] ∧ pre.last_delta_flip_time + 2000 < now ∧
    post.last_delta_flip_time = now)

/-- One step's contract for the stacked-imbalance cooldown (≥ 30 000 ms). -/
def StackedSpec (pre post : ProcessingState) (now : Nat)
    (msgs : List WsMessage) : Prop :=
  (stacked_times msgs = [] ∧
    post.last_stacked_imbalance_time = pre.last_stacked_imbalance_time) ∨
  (stacked_times msgs = [now] ∧ pre.last_stacked_imbalance_time + 30000 ≤ now ∧
    post.last_stacked_imbalance_time = now)

/-- One step's contract for the confluence cooldown (≥ 10 000 ms). -/
def ConfSpec (pre post : ProcessingState) (now : Nat) (msgs : List WsMessage) :
    Prop :=
  (confluence_times msgs = [] ∧
    post.last_confluence_time = pre.last_confluence_time) ∨
  (confluence_times msgs = [now] ∧ pre.last_confluence_time + 10000 ≤ now ∧
    post.last_confluence_time = now)

theorem confluence_times_append (a b : List WsMessage) :
    confluence_times (a ++ b) = confluence_times a ++ confluence_times b := by
  simp [confluence_times, confluence_events]

/-- Two consecutive transformations at the same clock value compose: the
cooldown forbids a second emission in the same tick. -/
theorem conf_spec_comp {s1 s2 s3 : ProcessingState} {now : Nat}
    {m1 m2 : List WsMessage} (h1 : ConfSpec s1 s2 now m1)
    (h2 : ConfSpec s2 s3 now m2) : ConfSpec s1 s3 now (m1 ++ m2) := by
  rcases h1 with ⟨he1, hl1⟩ | ⟨he1, hg1, hl1⟩ <;>
    rcases h2 with ⟨he2, hl2⟩ | ⟨he2, hg2, hl2⟩
  · exact Or.inl ⟨by simp [confluence_times_append, he1, he2], by rw [hl2, hl1]⟩
  · exact Or.inr ⟨by simp [confluence_times_append, he1, he2],
      by rw [hl1] at hg2; exact hg2, hl2⟩
  · exact Or.inr ⟨by simp [confluence_times_append, he1, he2], hg1,
      by rw [hl2, hl1]⟩
  · rw [hl1] at hg2
    omega

/-- A pure state transformation that leaves `last_confluence_time` alone and
emits nothing satisfies the spec. -/
theorem conf_spec_of_untouched {s1 s2 : ProcessingState} {now : Nat}
    (h : s2.last_confluence_time = s1.last_confluence_time) :
    ConfSpec s1 s2 now [] :=
  Or.inl ⟨rfl, h⟩

theorem detect_confluence_conf_spec (s : ProcessingState) (now : Nat)
    (price : ℚ) :
    ConfSpec s (detect_confluence s now price).1 now
      (detect_confluence s now price).2 := by
  unfold detect_confluence
  dsimp only
  split_ifs with h1 <;>
    first
      | exact Or.inl ⟨rfl, rfl⟩
      | exact Or.inr ⟨by simp [confluence_times, confluence_events], by omega, rfl⟩

theorem confluence_times_broadcast (s : ProcessingState) :
    confluence_times [broadcast_stats s] = [] := by
  simp [confluence_times, confluence_events, broadcast_stats]

theorem record_signal_conf_spec (s : ProcessingState) (now : Nat)
    (ty dir : String) (price : ℚ) :
    ConfSpec s (record_signal s now ty dir price).1 now
      (record_signal s now ty dir price).2 := by
  have hmid : (rs_mid s now ty dir price).last_confluence_time =
      s.last_confluence_time := rfl
  have hc := detect_confluence_conf_spec (rs_mid s now ty dir price) now price
  unfold record_signal
  dsimp only
  split_ifs with hstats
  · rcases hc with ⟨he, hl⟩ | ⟨he, hg, hl⟩
    · exact Or.inl ⟨by simp [confluence_times_append, he,
        confluence_times_broadcast], by simp [update_signal_outcomes, hl, hmid]⟩
    · exact Or.inr ⟨by simp [confluence_times_append, he,
        confluence_times_broadcast], by rw [hmid] at hg; exact hg,
        by simp [update_signal_outcomes, hl]⟩
  · rcases hc with ⟨he, hl⟩ | ⟨he, hg, hl⟩
    · exact Or.inl ⟨he, by simp [update_signal_outcomes, hl, hmid]⟩
    · exact Or.inr ⟨he, by rw [hmid] at hg; exact hg,
        by simp [update_signal_outcomes, hl]⟩

theorem conf_spec_congr {pre pre' post post' : ProcessingState} {now : Nat}
    {m m' : List WsMessage}
    (hpre : pre'.last_confluence_time = pre.last_confluence_time)
    (hpost : post'.last_confluence_time = post.last_confluence_time)
    (hm : confluence_times m' = confluence_times m)
    (h : ConfSpec pre post now m) : ConfSpec pre' post' now m' := by
  rcases h with ⟨he, hl⟩ | ⟨he, hg, hl⟩
  · exact Or.inl ⟨by rw [hm, he], by rw [hpost, hl, ← hpre]⟩
  · exact Or.inr ⟨by rw [hm, he], by rw [hpre]; exact hg, by rw [hpost, hl]⟩

set_option maxHeartbeats 2000000 in
theorem detect_stacked_conf_spec (s : ProcessingState) (now : Nat) :
    ConfSpec s (detect_stacked_imbalances s now).1 now
      (detect_stacked_imbalances s now).2 := by
  unfold detect_stacked_imbalances
  dsimp only
  split_ifs <;> try exact conf_spec_of_untouched rfl
  rcases (best_streak_of s.volume_profile).1 with _ | side <;> dsimp only
  · exact conf_spec_of_untouched rfl
  · split_ifs <;>
      first
        | exact conf_spec_congr rfl rfl
            (by simp [confluence_times, confluence_events])
            (record_signal_conf_spec _ now _ _ _)
        | exact conf_spec_of_untouched rfl

set_option maxHeartbeats 2000000 in
theorem absorption_conf_spec (s : ProcessingState) (now : Nat) (delta : Int)
    (avg_price : ℚ) :
    ConfSpec s (absorption_step s now delta avg_price).1 now
      (absorption_step s now delta avg_price).2 := by
  unfold absorption_step
  rcases hfp : s.window_first_price with _ | fp <;>
    rcases hlp : s.window_last_price with _ | lp <;>
    dsimp only <;>
    try exact conf_spec_of_untouched rfl
  split_ifs <;>
    first
      | exact conf_spec_of_untouched rfl
      | exact conf_spec_congr rfl rfl
          (by simp [confluence_times, confluence_events])
          (record_signal_conf_spec _ now _ _ _)

theorem confluence_times_zones (s : ProcessingState) :
    confluence_times (active_zones_msg s) = [] := by
  unfold active_zones_msg
  dsimp only
  split_ifs <;> simp [confluence_times, confluence_events]

/-- Dispatcher over the total-volume-zero guard of `process_buffer`. -/
theorem pb_body_conf_spec (s0 : ProcessingState) (now : Nat) (c : Prop)
    [Decidable c] (s1 : ProcessingState)
    (h1 : s1.last_confluence_time = s0.last_confluence_time)
    (tail : ProcessingState × List WsMessage)
    (htail : ConfSpec s0 tail.1 now tail.2) :
    ConfSpec s0 (if c then (s1, ([] : List WsMessage)) else tail).1 now
      (if c then (s1, ([] : List WsMessage)) else tail).2 := by
  split_ifs with h
  · exact conf_spec_of_untouched h1
  · exact htail

/-- The delta-flip section of `process_buffer` respects the confluence
cooldown. -/
theorem pb_flip_conf_spec (s0 s2 : ProcessingState)
    (h2 : s2.last_confluence_time = s0.last_confluence_time) (now : Nat)
    (c : Prop) [Decidable c] (df : DeltaFlip) (dir : String) (avg : ℚ) :
    ConfSpec s0
      (if c then
        ((record_signal { s2 with last_delta_flip_time := now } now
            "delta_flip" dir avg).1,
          WsMessage.deltaFlip df ::
            (record_signal { s2 with last_delta_flip_time := now } now
              "delta_flip" dir avg).2)
      else (s2, [])).1 now
      (if c then
        ((record_signal { s2 with last_delta_flip_time := now } now
            "delta_flip" dir avg).1,
          WsMessage.deltaFlip df ::
            (record_signal { s2 with last_delta_flip_time := now } now
              "delta_flip" dir avg).2)
      else (s2, [])).2 := by
  split_ifs with h
  · exact conf_spec_congr h2.symm rfl
      (by simp [confluence_times, confluence_events])
      (record_signal_conf_spec { s2 with last_delta_flip_time := now } now
        "delta_flip" dir avg)
  · exact conf_spec_of_untouched h2

/-- The post-flip section of `process_buffer` (stacked detection, absorption,
zone broadcast, buffer reset) respects the confluence cooldown. -/
theorem pb_tail_conf_spec (s0 : ProcessingState) (now : Nat) (d : Int) (a : ℚ)
    (fl : ProcessingState × List WsMessage) (cs : Int)
    (hfl : ConfSpec s0 fl.1 now fl.2) (b cv : WsMessage)
    (hb : confluence_times [b, cv] = []) :
    ConfSpec s0
      { (absorption_step
          (detect_stacked_imbalances { fl.1 with prev_cvd_sign := cs } now).1
          now d a).1 with
        window_first_price := none, window_last_price := none
        trade_buffer := [] } now
      (b :: cv :: (fl.2 ++
        (detect_stacked_imbalances { fl.1 with prev_cvd_sign := cs } now).2 ++
        (absorption_step
          (detect_stacked_imbalances { fl.1 with prev_cvd_sign := cs } now).1
          now d a).2 ++
        active_zones_msg (absorption_step
          (detect_stacked_imbalances { fl.1 with prev_cvd_sign := cs } now).1
          now d a).1)) := by
  have h1 : ConfSpec s0 ({ fl.1 with prev_cvd_sign := cs }) now fl.2 :=
    conf_spec_congr rfl rfl rfl hfl
  have h2 := conf_spec_comp h1
    (detect_stacked_conf_spec { fl.1 with prev_cvd_sign := cs } now)
  have h3 := conf_spec_comp h2
    (absorption_conf_spec
      (detect_stacked_imbalances { fl.1 with prev_cvd_sign := cs } now).1
      now d a)
  have h4 : ConfSpec
      (absorption_step
        (detect_stacked_imbalances { fl.1 with prev_cvd_sign := cs } now).1
        now d a).1
      (absorption_step
        (detect_stacked_imbalances { fl.1 with prev_cvd_sign := cs } now).1
        now d a).1 now
      (active_zones_msg (absorption_step
        (detect_stacked_imbalances { fl.1 with prev_cvd_sign := cs } now).1
        now d a).1) :=
    conf_spec_congr rfl rfl (by rw [confluence_times_zones]; rfl)
      (conf_spec_of_untouched rfl)
  have h5 := conf_spec_comp h3 h4
  refine conf_spec_congr rfl rfl ?_ h5
  have hsplit : b :: cv :: (fl.2 ++
      (detect_stacked_imbalances { fl.1 with prev_cvd_sign := cs } now).2 ++
      (absorption_step
        (detect_stacked_imbalances { fl.1 with prev_cvd_sign := cs } now).1
        now d a).2 ++
      active_zones_msg (absorption_step
        (detect_stacked_imbalances { fl.1 with prev_cvd_sign := cs } now).1
        now d a).1) =
      [b, cv] ++ (fl.2 ++
      (detect_stacked_imbalances { fl.1 with prev_cvd_sign := cs } now).2 ++
      (absorption_step
        (detect_stacked_imbalances { fl.1 with prev_cvd_sign := cs } now).1
        now d a).2 ++
      active_zones_msg (absorption_step
        (detect_stacked_imbalances { fl.1 with prev_cvd_sign := cs } now).1
        now d a).1) := rfl
  rw [hsplit, confluence_times_append, hb]
  simp

set_option maxHeartbeats 2000000 in
/-- `process_buffer` satisfies the confluence cooldown contract. -/
theorem process_buffer_conf_spec (s : ProcessingState) (now : Nat) :
    ConfSpec s (process_buffer s now).1 now (process_buffer s now).2 := by
  unfold process_buffer
  by_cases hbuf : s.trade_buffer = []
  · rw [if_pos hbuf]
    exact conf_spec_of_untouched rfl
  rw [if_neg hbuf]
  dsimp only
  refine pb_body_conf_spec s now _ _ ?_ _ ?_
  · rfl
  · dsimp only
    refine pb_tail_conf_spec s now _ _ _ _ ?_ _ _ ?_
    · refine pb_flip_conf_spec s _ ?_ now _ _ _ _
      rfl
    · simp [confluence_times, confluence_events]

theorem flip_times_append (a b : List WsMessage) :
    flip_times (a ++ b) = flip_times a ++ flip_times b := by
  simp [flip_times, flip_events_append]

theorem stacked_times_append (a b : List WsMessage) :
    stacked_times (a ++ b) = stacked_times a ++ stacked_times b := by
  simp [stacked_times, stacked_events_append]

theorem stacked_events_cons_flip (d : DeltaFlip) (l : List WsMessage) :
    stacked_events (WsMessage.deltaFlip d :: l) = stacked_events l := by
  simp [stacked_events]

/-- `absorption_step` emits no stacked imbalances. -/
theorem absorption_no_stacked (s : ProcessingState) (now : Nat) (delta : Int)
    (avg_price : ℚ) :
    stacked_events (absorption_step s now delta avg_price).2 = [] := by
  unfold absorption_step
  rcases s.window_first_price with _ | fp <;>
    rcases s.window_last_price with _ | lp <;>
    dsimp only <;>
    try rfl
  split_ifs <;>
    simp [stacked_events_nil, stacked_events_cons_absorption,
      stacked_events_record_signal]

/-- The end-of-tick zone list contains no stacked imbalances. -/
theorem zones_no_stacked (s : ProcessingState) :
    stacked_events (active_zones_msg s) = [] := by
  unfold active_zones_msg
  dsimp only
  split_ifs <;> simp [stacked_events]

/-- Two consecutive transformations at the same clock value compose for the
delta-flip cooldown: a second flip in the same tick is impossible. -/
theorem flip_spec_comp {s1 s2 s3 : ProcessingState} {now : Nat}
    {m1 m2 : List WsMessage} (h1 : FlipSpec s1 s2 now m1)
    (h2 : FlipSpec s2 s3 now m2) : FlipSpec s1 s3 now (m1 ++ m2) := by
  rcases h1 with ⟨he1, hl1⟩ | ⟨he1, hg1, hl1⟩ <;>
    rcases h2 with ⟨he2, hl2⟩ | ⟨he2, hg2, hl2⟩
  · exact Or.inl ⟨by simp [flip_times_append, he1, he2], by rw [hl2, hl1]⟩
  · exact Or.inr ⟨by simp [flip_times_append, he1, he2],
      by rw [hl1] at hg2; exact hg2, hl2⟩
  · exact Or.inr ⟨by simp [flip_times_append, he1, he2], hg1,
      by rw [hl2, hl1]⟩
  · rw [hl1] at hg2
    omega

theorem flip_spec_congr {pre pre' post post' : ProcessingState} {now : Nat}
    {m m' : List WsMessage}
    (hpre : pre'.last_delta_flip_time = pre.last_delta_flip_time)
    (hpost : post'.last_delta_flip_time = post.last_delta_flip_time)
    (hm : flip_times m' = flip_times m)
    (h : FlipSpec pre post now m) : FlipSpec pre' post' now m' := by
  rcases h with ⟨he, hl⟩ | ⟨he, hg, hl⟩
  · exact Or.inl ⟨by rw [hm, he], by rw [hpost, hl, ← hpre]⟩
  · exact Or.inr ⟨by rw [hm, he], by rw [hpre]; exact hg, by rw [hpost, hl]⟩

/-- `detect_stacked_imbalances` neither emits a flip nor moves the flip
cooldown. -/
theorem detect_stacked_flip_untouched (s : ProcessingState) (now : Nat) :
    FlipSpec s (detect_stacked_imbalances s now).1 now
      (detect_stacked_imbalances s now).2 :=
  Or.inl ⟨by simp [flip_times, stacked_no_flip],
    (detect_stacked_fields s now).2.2.2.1⟩

/-- `absorption_step` neither emits a flip nor moves the flip cooldown. -/
theorem absorption_flip_untouched (s : ProcessingState) (now : Nat)
    (delta : Int) (avg_price : ℚ) :
    FlipSpec s (absorption_step s now delta avg_price).1 now
      (absorption_step s now delta avg_price).2 :=
  Or.inl ⟨by simp [flip_times, absorption_no_flip],
    (absorption_fields s now delta avg_price).2.2.2.1⟩

/-- Dispatcher over the total-volume-zero guard, flip-cooldown version. -/
theorem pb_body_flip_spec (s0 : ProcessingState) (now : Nat) (c : Prop)
    [Decidable c] (s1 : ProcessingState)
    (h1 : s1.last_delta_flip_time = s0.last_delta_flip_time)
    (tail : ProcessingState × List WsMessage)
    (htail : FlipSpec s0 tail.1 now tail.2) :
    FlipSpec s0 (if c then (s1, ([] : List WsMessage)) else tail).1 now
      (if c then (s1, ([] : List WsMessage)) else tail).2 := by
  split_ifs with h
  · exact Or.inl ⟨rfl, h1⟩
  · exact htail

theorem flip_times_bubble_cvd (b : Bubble) (c : CVDPoint) :
    flip_times [WsMessage.bubble b, WsMessage.cvdPoint c] = [] := rfl

theorem stacked_times_bubble_cvd (b : Bubble) (c : CVDPoint) :
    stacked_times [WsMessage.bubble b, WsMessage.cvdPoint c] = [] := rfl

/-- The delta-flip section of `process_buffer` is the only flip emitter, and
it obeys the strict 2000 ms gate (the gate is the last conjunct of the
emission condition, abstracted here as `hc`). -/
theorem pb_flip_flip_spec (s0 s2 : ProcessingState)
    (h2 : s2.last_delta_flip_time = s0.last_delta_flip_time)
    (now : Nat) (c : Prop) [Decidable c]
    (hc : c → 2000 < now - s2.last_delta_flip_time)
    (df : DeltaFlip) (hdf : df.timestamp = now)
    (dir : String) (avg : ℚ) :
    FlipSpec s0
      (if c then
        ((record_signal { s2 with last_delta_flip_time := now } now
            "delta_flip" dir avg).1,
          WsMessage.deltaFlip df ::
            (record_signal { s2 with last_delta_flip_time := now } now
              "delta_flip" dir avg).2)
      else (s2, [])).1 now
      (if c then
        ((record_signal { s2 with last_delta_flip_time := now } now
            "delta_flip" dir avg).1,
          WsMessage.deltaFlip df ::
            (record_signal { s2 with last_delta_flip_time := now } now
              "delta_flip" dir avg).2)
      else (s2, [])).2 := by
  split_ifs with h
  · refine Or.inr ⟨?_, ?_, ?_⟩
    · simp [flip_times, flip_events_cons_flip, flip_events_record_signal, hdf]
    · have h4 := hc h
      omega
    · rw [(record_signal_fields _ now _ _ _).2.2.2.1]
  · exact Or.inl ⟨rfl, h2⟩

/-- The post-flip section of `process_buffer` never emits a flip nor moves
the flip cooldown. -/
theorem pb_tail_flip_spec (s0 : ProcessingState) (now : Nat) (d : Int) (a : ℚ)
    (fl : ProcessingState × List WsMessage) (cs : Int)
    (hfl : FlipSpec s0 fl.1 now fl.2) (b cv : WsMessage)
    (hb : flip_times [b, cv] = []) :
    FlipSpec s0
      { (absorption_step
          (detect_stacked_imbalances { fl.1 with prev_cvd_sign := cs } now).1
          now d a).1 with
        window_first_price := none, window_last_price := none
        trade_buffer := [] } now
      (b :: cv :: (fl.2 ++
        (detect_stacked_imbalances { fl.1 with prev_cvd_sign := cs } now).2 ++
        (absorption_step
          (detect_stacked_imbalances { fl.1 with prev_cvd_sign := cs } now).1
          now d a).2 ++
        active_zones_msg (absorption_step
          (detect_stacked_imbalances { fl.1 with prev_cvd_sign := cs } now).1
          now d a).1)) := by
  have h1 : FlipSpec s0 ({ fl.1 with prev_cvd_sign := cs }) now fl.2 :=
    flip_spec_congr rfl rfl rfl hfl
  have h2 := flip_spec_comp h1
    (detect_stacked_flip_untouched { fl.1 with prev_cvd_sign := cs } now)
  have h3 := flip_spec_comp h2
    (absorption_flip_untouched
      (detect_stacked_imbalances { fl.1 with prev_cvd_sign := cs } now).1
      now d a)
  have h4 : FlipSpec
      (absorption_step
        (detect_stacked_imbalances { fl.1 with prev_cvd_sign := cs } now).1
        now d a).1
      (absorption_step
        (detect_stacked_imbalances { fl.1 with prev_cvd_sign := cs } now).1
        now d a).1 now
      (active_zones_msg (absorption_step
        (detect_stacked_imbalances { fl.1 with prev_cvd_sign := cs } now).1
        now d a).1) :=
    Or.inl ⟨by simp [flip_times, zones_no_flip], rfl⟩
  have h5 := flip_spec_comp h3 h4
  refine flip_spec_congr rfl rfl ?_ h5
  have hsplit : b :: cv :: (fl.2 ++
      (detect_stacked_imbalances { fl.1 with prev_cvd_sign := cs } now).2 ++
      (absorption_step
        (detect_stacked_imbalances { fl.1 with prev_cvd_sign := cs } now).1
        now d a).2 ++
      active_zones_msg (absorption_step
        (detect_stacked_imbalances { fl.1 with prev_cvd_sign := cs } now).1
        now d a).1) =
      [b, cv] ++ (fl.2 ++
      (detect_stacked_imbalances { fl.1 with prev_cvd_sign := cs } now).2 ++
      (absorption_step
        (detect_stacked_imbalances { fl.1 with prev_cvd_sign := cs } now).1
        now d a).2 ++
      active_zones_msg (absorption_step
        (detect_stacked_imbalances { fl.1 with prev_cvd_sign := cs } now).1
        now d a).1) := rfl
  rw [hsplit, flip_times_append, hb]
  simp

set_option maxHeartbeats 2000000 in
/-- `process_buffer` satisfies the delta-flip cooldown contract. -/
theorem process_buffer_flip_spec (s : ProcessingState) (now : Nat) :
    FlipSpec s (process_buffer s now).1 now (process_buffer s now).2 := by
  unfold process_buffer
  by_cases hbuf : s.trade_buffer = []
  · rw [if_pos hbuf]
    exact Or.inl ⟨rfl, rfl⟩
  rw [if_neg hbuf]
  dsimp only
  refine pb_body_flip_spec s now _ _ ?_ _ ?_
  · rfl
  · dsimp only
    refine pb_tail_flip_spec s now _ _ _ _ ?_ _ _ ?_
    · refine pb_flip_flip_spec s _ ?_ now _ ?_ _ ?_ _ _
      · rfl
      · exact fun h => h.2.2.2
      · rfl
    · exact flip_times_bubble_cvd _ _

/-- Two consecutive transformations at the same clock value compose for the
stacked-imbalance cooldown. -/
theorem stacked_spec_comp {s1 s2 s3 : ProcessingState} {now : Nat}
    {m1 m2 : List WsMessage} (h1 : StackedSpec s1 s2 now m1)
    (h2 : StackedSpec s2 s3 now m2) : StackedSpec s1 s3 now (m1 ++ m2) := by
  rcases h1 with ⟨he1, hl1⟩ | ⟨he1, hg1, hl1⟩ <;>
    rcases h2 with ⟨he2, hl2⟩ | ⟨he2, hg2, hl2⟩
  · exact Or.inl ⟨by simp [stacked_times_append, he1, he2], by rw [hl2, hl1]⟩
  · exact Or.inr ⟨by simp [stacked_times_append, he1, he2],
      by rw [hl1] at hg2; exact hg2, hl2⟩
  · exact Or.inr ⟨by simp [stacked_times_append, he1, he2], hg1,
      by rw [hl2, hl1]⟩
  · rw [hl1] at hg2
    omega

theorem stacked_spec_congr {pre pre' post post' : ProcessingState} {now : Nat}
    {m m' : List WsMessage}
    (hpre : pre'.last_stacked_imbalance_time = pre.last_stacked_imbalance_time)
    (hpost : post'.last_stacked_imbalance_time =
      post.last_stacked_imbalance_time)
    (hm : stacked_times m' = stacked_times m)
    (h : StackedSpec pre post now m) : StackedSpec pre' post' now m' := by
  rcases h with ⟨he, hl⟩ | ⟨he, hg, hl⟩
  · exact Or.inl ⟨by rw [hm, he], by rw [hpost, hl, ← hpre]⟩
  · exact Or.inr ⟨by rw [hm, he], by rw [hpre]; exact hg, by rw [hpost, hl]⟩

set_option maxHeartbeats 2000000 in
/-- `detect_stacked_imbalances` is the only stacked emitter, and it obeys
the 30 000 ms gate. -/
theorem detect_stacked_stacked_spec (s : ProcessingState) (now : Nat) :
    StackedSpec s (detect_stacked_imbalances s now).1 now
      (detect_stacked_imbalances s now).2 := by
  unfold detect_stacked_imbalances
  dsimp only
  by_cases h1 : now - s.last_stacked_imbalance_time < 30000
  · rw [if_pos h1]
    exact Or.inl ⟨rfl, rfl⟩
  rw [if_neg h1]
  split_ifs <;> try exact Or.inl ⟨rfl, rfl⟩
  rcases (best_streak_of s.volume_profile).1 with _ | side <;> dsimp only
  · exact Or.inl ⟨rfl, rfl⟩
  · split_ifs <;>
      first
        | exact Or.inl ⟨rfl, rfl⟩
        | exact Or.inr ⟨by simp [stacked_times, stacked_events_cons_stacked,
              stacked_events_record_signal], by omega,
            by rw [(record_signal_fields _ now _ _ _).2.2.2.2.1]⟩

/-- `absorption_step` neither emits a stacked imbalance nor moves its
cooldown. -/
theorem absorption_stacked_untouched (s : ProcessingState) (now : Nat)
    (delta : Int) (avg_price : ℚ) :
    StackedSpec s (absorption_step s now delta avg_price).1 now
      (absorption_step s now delta avg_price).2 :=
  Or.inl ⟨by simp [stacked_times, absorption_no_stacked],
    (absorption_fields s now delta avg_price).2.2.2.2.1⟩

/-- Dispatcher over the total-volume-zero guard, stacked version. -/
theorem pb_body_stacked_spec (s0 : ProcessingState) (now : Nat) (c : Prop)
    [Decidable c] (s1 : ProcessingState)
    (h1 : s1.last_stacked_imbalance_time = s0.last_stacked_imbalance_time)
    (tail : ProcessingState × List WsMessage)
    (htail : StackedSpec s0 tail.1 now tail.2) :
    StackedSpec s0 (if c then (s1, ([] : List WsMessage)) else tail).1 now
      (if c then (s1, ([] : List WsMessage)) else tail).2 := by
  split_ifs with h
  · exact Or.inl ⟨rfl, h1⟩
  · exact htail

/-- The delta-flip section neither emits a stacked imbalance nor moves its
cooldown. -/
theorem pb_flip_stacked_spec (s0 s2 : ProcessingState)
    (h2 : s2.last_stacked_imbalance_time = s0.last_stacked_imbalance_time)
    (now : Nat) (c : Prop) [Decidable c] (df : DeltaFlip) (dir : String)
    (avg : ℚ) :
    StackedSpec s0
      (if c then
        ((record_signal { s2 with last_delta_flip_time := now } now
            "delta_flip" dir avg).1,
          WsMessage.deltaFlip df ::
            (record_signal { s2 with last_delta_flip_time := now } now
              "delta_flip" dir avg).2)
      else (s2, [])).1 now
      (if c then
        ((record_signal { s2 with last_delta_flip_time := now } now
            "delta_flip" dir avg).1,
          WsMessage.deltaFlip df ::
            (record_signal { s2 with last_delta_flip_time := now } now
              "delta_flip" dir avg).2)
      else (s2, [])).2 := by
  split_ifs with h
  · refine Or.inl ⟨?_, ?_⟩
    · simp [stacked_times, stacked_events_cons_flip,
        stacked_events_record_signal]
    · rw [(record_signal_fields _ now _ _ _).2.2.2.2.1]
      exact h2
  · exact Or.inl ⟨rfl, h2⟩

/-- The post-flip section of `process_buffer` respects the stacked
cooldown. -/
theorem pb_tail_stacked_spec (s0 : ProcessingState) (now : Nat) (d : Int)
    (a : ℚ) (fl : ProcessingState × List WsMessage) (cs : Int)
    (hfl : StackedSpec s0 fl.1 now fl.2) (b cv : WsMessage)
    (hb : stacked_times [b, cv] = []) :
    StackedSpec s0
      { (absorption_step
          (detect_stacked_imbalances { fl.1 with prev_cvd_sign := cs } now).1
          now d a).1 with
        window_first_price := none, window_last_price := none
        trade_buffer := [] } now
      (b :: cv :: (fl.2 ++
        (detect_stacked_imbalances { fl.1 with prev_cvd_sign := cs } now).2 ++
        (absorption_step
          (detect_stacked_imbalances { fl.1 with prev_cvd_sign := cs } now).1
          now d a).2 ++
        active_zones_msg (absorption_step
          (detect_stacked_imbalances { fl.1 with prev_cvd_sign := cs } now).1
          now d a).1)) := by
  have h1 : StackedSpec s0 ({ fl.1 with prev_cvd_sign := cs }) now fl.2 :=
    stacked_spec_congr rfl rfl rfl hfl
  have h2 := stacked_spec_comp h1
    (detect_stacked_stacked_spec { fl.1 with prev_cvd_sign := cs } now)
  have h3 := stacked_spec_comp h2
    (absorption_stacked_untouched
      (detect_stacked_imbalances { fl.1 with prev_cvd_sign := cs } now).1
      now d a)
  have h4 : StackedSpec
      (absorption_step
        (detect_stacked_imbalances { fl.1 with prev_cvd_sign := cs } now).1
        now d a).1
      (absorption_step
        (detect_stacked_imbalances { fl.1 with prev_cvd_sign := cs } now).1
        now d a).1 now
      (active_zones_msg (absorption_step
        (detect_stacked_imbalances { fl.1 with prev_cvd_sign := cs } now).1
        now d a).1) :=
    Or.inl ⟨by simp [stacked_times, zones_no_stacked], rfl⟩
  have h5 := stacked_spec_comp h3 h4
  refine stacked_spec_congr rfl rfl ?_ h5
  have hsplit : b :: cv :: (fl.2 ++
      (detect_stacked_imbalances { fl.1 with prev_cvd_sign := cs } now).2 ++
      (absorption_step
        (detect_stacked_imbalances { fl.1 with prev_cvd_sign := cs } now).1
        now d a).2 ++
      active_zones_msg (absorption_step
        (detect_stacked_imbalances { fl.1 with prev_cvd_sign := cs } now).1
        now d a).1) =
      [b, cv] ++ (fl.2 ++
      (detect_stacked_imbalances { fl.1 with prev_cvd_sign := cs } now).2 ++
      (absorption_step
        (detect_stacked_imbalances { fl.1 with prev_cvd_sign := cs } now).1
        now d a).2 ++
      active_zones_msg (absorption_step
        (detect_stacked_imbalances { fl.1 with prev_cvd_sign := cs } now).1
        now d a).1) := rfl
  rw [hsplit, stacked_times_append, hb]
  simp

set_option maxHeartbeats 2000000 in
/-- `process_buffer` satisfies the stacked-imbalance cooldown contract. -/
theorem process_buffer_stacked_spec (s : ProcessingState) (now : Nat) :
    StackedSpec s (process_buffer s now).1 now (process_buffer s now).2 := by
  unfold process_buffer
  by_cases hbuf : s.trade_buffer = []
  · rw [if_pos hbuf]
    exact Or.inl ⟨rfl, rfl⟩
  rw [if_neg hbuf]
  dsimp only
  refine pb_body_stacked_spec s now _ _ ?_ _ ?_
  · rfl
  · dsimp only
    refine pb_tail_stacked_spec s now _ _ _ _ ?_ _ _ ?_
    · refine pb_flip_stacked_spec s _ ?_ now _ _ _ _
      rfl
    · exact stacked_times_bubble_cvd _ _

/-! ### C7: emission cooldowns over whole executions -/

/-- Any two entries of the list (in order) are separated by at least `g`. -/
def gapped (g : Nat) (l : List Nat) : Prop :=
  l.Pairwise fun a b => a + g ≤ b

/-- Each driver step obeys the flip-cooldown contract at some clock value. -/
theorem stepOp_flip_spec (s : ProcessingState) (op : Op) :
    ∃ n, FlipSpec s (stepOp s op).1 n (stepOp s op).2 := by
  cases op with
  | ingest t => exact ⟨0, Or.inl ⟨rfl, rfl⟩⟩
  | tick now => exact ⟨now, process_buffer_flip_spec s now⟩

theorem stepOp_stacked_spec (s : ProcessingState) (op : Op) :
    ∃ n, StackedSpec s (stepOp s op).1 n (stepOp s op).2 := by
  cases op with
  | ingest t => exact ⟨0, Or.inl ⟨rfl, rfl⟩⟩
  | tick now => exact ⟨now, process_buffer_stacked_spec s now⟩

theorem stepOp_conf_spec (s : ProcessingState) (op : Op) :
    ∃ n, ConfSpec s (stepOp s op).1 n (stepOp s op).2 := by
  cases op with
  | ingest t => exact ⟨0, Or.inl ⟨rfl, rfl⟩⟩
  | tick now => exact ⟨now, process_buffer_conf_spec s now⟩

/-- Run-level invariant for the flip cooldown: emitted flip times are
pairwise ≥ 2000 ms apart and all lie strictly beyond the pending
cooldown. -/
theorem run_flip_gapped (ops : List Op) (s : ProcessingState) :
    gapped 2000 (flip_times (run s ops).2) ∧
    ∀ t ∈ flip_times (run s ops).2, s.last_delta_flip_time + 2000 < t := by
  induction ops generalizing s with
  | nil =>
    refine ⟨List.Pairwise.nil, ?_⟩
    intro t ht
    simp [run, flip_times, flip_events] at ht
  | cons op ops ih =>
    rw [run_cons]
    dsimp only
    rw [flip_times_append]
    rcases stepOp_flip_spec s op with ⟨n, hspec⟩
    rcases ih (stepOp s op).1 with ⟨ihg, iha⟩
    rcases hspec with ⟨he, hl⟩ | ⟨he, hg, hl⟩
    · rw [he, List.nil_append]
      refine ⟨ihg, ?_⟩
      intro t ht
      have h3 := iha t ht
      rw [hl] at h3
      exact h3
    · rw [he, List.singleton_append]
      constructor
      · refine List.Pairwise.cons ?_ ihg
        intro t ht
        have h3 := iha t ht
        rw [hl] at h3
        omega
      · intro t ht
        rcases List.mem_cons.mp ht with h | h
        · subst h
          exact hg
        · have h3 := iha t h
          rw [hl] at h3
          omega

/-- Run-level invariant for the stacked cooldown. -/
theorem run_stacked_gapped (ops : List Op) (s : ProcessingState) :
    gapped 30000 (stacked_times (run s ops).2) ∧
    ∀ t ∈ stacked_times (run s ops).2,
      s.last_stacked_imbalance_time + 30000 ≤ t := by
  induction ops generalizing s with
  | nil =>
    refine ⟨List.Pairwise.nil, ?_⟩
    intro t ht
    simp [run, stacked_times, stacked_events] at ht
  | cons op ops ih =>
    rw [run_cons]
    dsimp only
    rw [stacked_times_append]
    rcases stepOp_stacked_spec s op with ⟨n, hspec⟩
    rcases ih (stepOp s op).1 with ⟨ihg, iha⟩
    rcases hspec with ⟨he, hl⟩ | ⟨he, hg, hl⟩
    · rw [he, List.nil_append]
      refine ⟨ihg, ?_⟩
      intro t ht
      have h3 := iha t ht
      rw [hl] at h3
      exact h3
    · rw [he, List.singleton_append]
      constructor
      · refine List.Pairwise.cons ?_ ihg
        intro t ht
        have h3 := iha t ht
        rw [hl] at h3
        omega
      · intro t ht
        rcases List.mem_cons.mp ht with h | h
        · subst h
          exact hg
        · have h3 := iha t h
          rw [hl] at h3
          omega

/-- Run-level invariant for the confluence cooldown. -/
theorem run_conf_gapped (ops : List Op) (s : ProcessingState) :
    gapped 10000 (confluence_times (run s ops).2) ∧
    ∀ t ∈ confluence_times (run s ops).2,
      s.last_confluence_time + 10000 ≤ t := by
  induction ops generalizing s with
  | nil =>
    refine ⟨List.Pairwise.nil, ?_⟩
    intro t ht
    simp [run, confluence_times, confluence_events] at ht
  | cons op ops ih =>
    rw [run_cons]
    dsimp only
    rw [confluence_times_append]
    rcases stepOp_conf_spec s op with ⟨n, hspec⟩
    rcases ih (stepOp s op).1 with ⟨ihg, iha⟩
    rcases hspec with ⟨he, hl⟩ | ⟨he, hg, hl⟩
    · rw [he, List.nil_append]
      refine ⟨ihg, ?_⟩
      intro t ht
      have h3 := iha t ht
      rw [hl] at h3
      exact h3
    · rw [he, List.singleton_append]
      constructor
      · refine List.Pairwise.cons ?_ ihg
        intro t ht
        have h3 := iha t ht
        rw [hl] at h3
        omega
      · intro t ht
        rcases List.mem_cons.mp ht with h | h
        · subst h
          exact hg
        · have h3 := iha t h
          rw [hl] at h3
          omega

/-- C7.  In every execution (every operation sequence from every starting
state), any two emitted DeltaFlips are at least 2000 ms apart, any two
StackedImbalances at least 30 000 ms apart, and any two ConfluenceEvents at
least 10 000 ms apart, as measured by their emission timestamps.  The
saturating-subtraction cooldown gates enforce this even without a
monotonic-clock assumption. -/
theorem emission_cooldowns (s : ProcessingState) (ops : List Op) :
    gapped 2000 (flip_times (run s ops).2) ∧
    gapped 30000 (stacked_times (run s ops).2) ∧
    gapped 10000 (confluence_times (run s ops).2) :=
  ⟨(run_flip_gapped ops s).1, (run_stacked_gapped ops s).1,
    (run_conf_gapped ops s).1⟩

/-! ### C2: the buckets of an emitted StackedImbalance need not be
consecutive -/

/-- Four buy-only quarter-point levels spaced two points apart: 150
contracts bought at each of 100, 102, 104 and 106, then a tick. -/
def c2Ops : List Op :=
  [Op.ingest ⟨"NQ", 100, 150, "buy", 1⟩,
   Op.ingest ⟨"NQ", 102, 150, "buy", 2⟩,
   Op.ingest ⟨"NQ", 104, 150, "buy", 3⟩,
   Op.ingest ⟨"NQ", 106, 150, "buy", 4⟩,
   Op.tick 100000]

set_option maxRecDepth 10000 in
set_option maxHeartbeats 2000000 in
/-- C2.  Code bug: the streak walk of `detect_stacked_imbalances` never
checks that successive bucket keys are adjacent (the source's own comment
and the claim say "consecutive").  Feeding buys only at prices 100, 102,
104 and 106 emits a StackedImbalance whose contributing 1-point buckets are
100, 102, 104 and 106: `level_count` is 4 while `price_high - price_low` is
7, and the integer key 101 inside `[price_low, price_high)` is not a bucket
of the profile at all, refuting both consequences of the claim. -/
theorem stacked_nonadjacent_code_bug :
    stacked_events (run (mkState 0) c2Ops).2 =
      [{ timestamp := 100000, side := "buy", level_count := 4,
         price_high := 107, price_low := 100, total_imbalance := 600,
         x := 23 / 25 }] ∧
    alookup 101 (point_buckets (run (mkState 0) c2Ops).1.volume_profile) =
      none ∧
    ((4 : ℚ) ≠ (107 : ℚ) - 100) := by
  decide

/-! ### C1: the value area -/

theorem roundTies_intCast (k : Int) : roundTies (k : ℚ) = k := by
  unfold roundTies
  split_ifs with h
  · have h1 : ⌊(k : ℚ) + 1 / 2⌋ = k := by
      rw [Int.floor_eq_iff]
      constructor
      · linarith
      · push_cast
        linarith
    exact h1
  · have h1 : ⌊-(k : ℚ) + 1 / 2⌋ = -k := by
      rw [Int.floor_eq_iff]
      push_cast
      constructor
      · linarith
      · linarith
    rw [h1]
    omega

theorem price_key_of_quarter (k : Int) : price_key_of ((k : ℚ) / 4) = k := by
  unfold price_key_of
  rw [div_mul_cancel₀ _ (by norm_num : (4 : ℚ) ≠ 0)]
  exact roundTies_intCast k

/-- The level returned by `max_by_key` is a value of the map. -/
theorem max_by_total_mem (m : List (Int × VolumeProfileLevel))
    (l : VolumeProfileLevel) (h : max_by_total m = some l) :
    ∃ k, (k, l) ∈ m := by
  induction m with
  | nil => exact absurd h (by simp [max_by_total])
  | cons p rest ih =>
    rw [show max_by_total (p :: rest) =
        (match max_by_total rest with
         | none => some p.2
         | some mx =>
           if p.2.total_volume > mx.total_volume then some p.2 else some mx)
      from rfl] at h
    rcases hrest : max_by_total rest with _ | mx
    · rw [hrest] at h
      dsimp only at h
      exact ⟨p.1, by rw [← show p.2 = l from by injection h]; simp⟩
    · rw [hrest] at h
      dsimp only at h
      split_ifs at h
      · exact ⟨p.1, by rw [← show p.2 = l from by injection h]; simp⟩
      · rcases ih (by rw [hrest, show mx = l from by injection h]) with ⟨k, hk⟩
        exact ⟨k, List.mem_cons_of_mem _ hk⟩

theorem Icc_sum_top (vol : Int → Nat) (lo hi : Int) (h : lo ≤ hi + 1) :
    ∑ k in Finset.Icc lo (hi + 1), vol k =
      (∑ k in Finset.Icc lo hi, vol k) + vol (hi + 1) := by
  have hins : Finset.Icc lo (hi + 1) = insert (hi + 1) (Finset.Icc lo hi) := by
    ext x
    simp only [Finset.mem_Icc, Finset.mem_insert]
    omega
  rw [hins, Finset.sum_insert (by simp only [Finset.mem_Icc]; omega)]
  omega

theorem Icc_sum_bot (vol : Int → Nat) (lo hi : Int) (h : lo - 1 ≤ hi) :
    ∑ k in Finset.Icc (lo - 1) hi, vol k =
      vol (lo - 1) + ∑ k in Finset.Icc lo hi, vol k := by
  have hins : Finset.Icc (lo - 1) hi = insert (lo - 1) (Finset.Icc lo hi) := by
    ext x
    simp only [Finset.mem_Icc, Finset.mem_insert]
    omega
  rw [hins, Finset.sum_insert (by simp only [Finset.mem_Icc]; omega)]

/-- Invariant of the value-area expansion loop: the interval only grows, its
volume sum tracks `included_vol`, and it stops either having reached the
target or with both immediate neighbours empty. -/
theorem va_expand_spec (vol : Int → Nat) (target : Nat) :
    ∀ (fuel : Nat) (hi lo : Int) (included : Nat),
      lo ≤ hi →
      included = ∑ k in Finset.Icc lo hi, vol k →
      target ≤ included + fuel →
      (va_expand fuel vol target hi lo included).2 ≤ lo ∧
      hi ≤ (va_expand fuel vol target hi lo included).1 ∧
      (target ≤ ∑ k in
          Finset.Icc (va_expand fuel vol target hi lo included).2
            (va_expand fuel vol target hi lo included).1, vol k ∨
        (vol ((va_expand fuel vol target hi lo included).1 + 1) = 0 ∧
          vol ((va_expand fuel vol target hi lo included).2 - 1) = 0)) := by
  intro fuel
  induction fuel with
  | zero =>
    intro hi lo included hle hsum hfuel
    exact ⟨le_refl lo, le_refl hi,
      Or.inl (by dsimp only [va_expand]; rw [← hsum]; omega)⟩
  | succ fuel ih =>
    intro hi lo included hle hsum hfuel
    have step : va_expand (fuel + 1) vol target hi lo included =
        if included < target then
          if vol (hi + 1) = 0 ∧ vol (lo - 1) = 0 then (hi, lo)
          else if vol (hi + 1) ≥ vol (lo - 1) then
            va_expand fuel vol target (hi + 1) lo (included + vol (hi + 1))
          else va_expand fuel vol target hi (lo - 1) (included + vol (lo - 1))
        else (hi, lo) := rfl
    rw [step]
    by_cases h1 : included < target
    · rw [if_pos h1]
      by_cases h2 : vol (hi + 1) = 0 ∧ vol (lo - 1) = 0
      · rw [if_pos h2]
        exact ⟨le_refl lo, le_refl hi, Or.inr h2⟩
      rw [if_neg h2]
      by_cases h3 : vol (hi + 1) ≥ vol (lo - 1)
      · rw [if_pos h3]
        have hpos : 1 ≤ vol (hi + 1) := by omega
        have hsum2 : included + vol (hi + 1) =
            ∑ k in Finset.Icc lo (hi + 1), vol k := by
          rw [Icc_sum_top vol lo hi (by omega), ← hsum]
        have h4 := ih (hi + 1) lo (included + vol (hi + 1)) (by omega)
          hsum2 (by omega)
        refine ⟨h4.1, ?_, h4.2.2⟩
        have h5 := h4.2.1
        omega
      · rw [if_neg h3]
        have hpos : 1 ≤ vol (lo - 1) := by omega
        have hsum2 : included + vol (lo - 1) =
            ∑ k in Finset.Icc (lo - 1) hi, vol k := by
          rw [Icc_sum_bot vol lo hi (by omega), ← hsum]
          omega
        have h4 := ih hi (lo - 1) (included + vol (lo - 1)) (by omega)
          hsum2 (by omega)
        refine ⟨?_, h4.2.1, h4.2.2⟩
        have h5 := h4.1
        omega
    · rw [if_neg h1]
      exact ⟨le_refl lo, le_refl hi,
        Or.inl (by dsimp only; rw [← hsum]; omega)⟩

set_option maxHeartbeats 1000000 in
/-- C1 (amended).  For a profile whose stored prices are consistent with
their quarter-point keys (as `add_trade` guarantees), whenever POC and the
value area exist, VAH ≥ POC ≥ VAL; and the ¼-point buckets from VAL to VAH
inclusive contribute at least the volume target, OR the expansion stopped
because BOTH buckets immediately adjacent to the current interval are empty
-- which, in a profile with interior gaps, does not imply that every
non-zero bucket of the profile is included. -/
theorem value_area_correct (s : ProcessingState) (target : Nat)
    (hkeys : ∀ p ∈ s.volume_profile, p.2.price = (p.1 : ℚ) / 4)
    (vah val poc : ℚ)
    (hpoc : get_poc s = some poc)
    (hva : get_value_area_with s target = some (vah, val)) :
    val ≤ poc ∧ poc ≤ vah ∧
    (target ≤ ∑ k in Finset.Icc (price_key_of val) (price_key_of vah),
        profile_vol s.volume_profile k ∨
      (profile_vol s.volume_profile (price_key_of vah + 1) = 0 ∧
        profile_vol s.volume_profile (price_key_of val - 1) = 0)) := by
  unfold get_value_area_with at hva
  by_cases hne : s.volume_profile = []
  · rw [if_pos hne] at hva
    exact absurd hva (by simp)
  rw [if_neg hne, hpoc] at hva
  dsimp only at hva
  rcases halk : alookup (price_key_of poc) s.volume_profile with _ | l
  · rw [halk] at hva
    exact absurd hva (by simp)
  rw [halk] at hva
  dsimp only at hva
  simp only [Option.some.injEq, Prod.mk.injEq] at hva
  obtain ⟨hvah, hval⟩ := hva
  unfold get_poc at hpoc
  rcases hmax : max_by_total s.volume_profile with _ | pl
  · rw [hmax] at hpoc
    exact absurd hpoc (by simp)
  rw [hmax] at hpoc
  simp only [Option.map_some', Option.some.injEq] at hpoc
  obtain ⟨k0, hk0⟩ := max_by_total_mem _ _ hmax
  have hpq : poc = (k0 : ℚ) / 4 := by
    rw [← hpoc, hkeys (k0, pl) hk0]
  have hK : price_key_of poc = k0 := by
    rw [hpq, price_key_of_quarter]
  have hbase : l.total_volume =
      ∑ k in Finset.Icc (price_key_of poc) (price_key_of poc),
        profile_vol s.volume_profile k := by
    rw [Finset.Icc_self, Finset.sum_singleton]
    unfold profile_vol
    rw [halk]
  obtain ⟨hlo, hhi, hdisj⟩ := va_expand_spec (profile_vol s.volume_profile)
    target (target + 1) (price_key_of poc) (price_key_of poc) l.total_volume
    (le_refl _) hbase (by omega)
  have hkv : price_key_of vah =
      (va_expand (target + 1) (profile_vol s.volume_profile) target
        (price_key_of poc) (price_key_of poc) l.total_volume).1 := by
    rw [← hvah, price_key_of_quarter]
  have hkl : price_key_of val =
      (va_expand (target + 1) (profile_vol s.volume_profile) target
        (price_key_of poc) (price_key_of poc) l.total_volume).2 := by
    rw [← hval, price_key_of_quarter]
  refine ⟨?_, ?_, ?_⟩
  · rw [← hval]
    have h6 : (va_expand (target + 1) (profile_vol s.volume_profile) target
        (price_key_of poc) (price_key_of poc) l.total_volume).2 ≤ k0 :=
      le_of_le_of_eq hlo hK
    have h5 : ((va_expand (target + 1) (profile_vol s.volume_profile) target
        (price_key_of poc) (price_key_of poc) l.total_volume).2 : ℚ) ≤
        (k0 : ℚ) := by exact_mod_cast h6
    linarith [hpq]
  · rw [← hvah]
    have h6 : k0 ≤ (va_expand (target + 1) (profile_vol s.volume_profile)
        target (price_key_of poc) (price_key_of poc) l.total_volume).1 :=
      le_of_eq_of_le hK.symm hhi
    have h5 : (k0 : ℚ) ≤
        ((va_expand (target + 1) (profile_vol s.volume_profile) target
          (price_key_of poc) (price_key_of poc) l.total_volume).1 : ℚ) := by
      exact_mod_cast h6
    linarith [hpq]
  · rw [hkv, hkl]
    exact hdisj

/-- Two buys at prices 0 and 2.5: a profile with an interior gap. -/
def c1Ops : List Op :=
  [Op.ingest ⟨"NQ", 0, 100, "buy", 1⟩,
   Op.ingest ⟨"NQ", 5 / 2, 90, "buy", 2⟩]

set_option maxRecDepth 10000 in
set_option maxHeartbeats 2000000 in
/-- Counterexample to C1 as stated: after buys of 100 at price 0 and 90 at
price 2.5, POC = 0 and the value area is (0, 0): the bucket span from VAL
to VAH holds 100 of the 190 total (100 · 10 < 190 · 7, i.e. under 70 %),
yet the non-zero bucket at key 10 (price 2.5, volume 90) is NOT included --
the expansion broke because the two buckets immediately adjacent to the POC
are empty, not because both sides were exhausted. -/
theorem value_area_gap_counterexample :
    get_poc (run (mkState 0) c1Ops).1 = some 0 ∧
    get_value_area (run (mkState 0) c1Ops).1 = some (0, 0) ∧
    profile_total_vol (run (mkState 0) c1Ops).1.volume_profile = 190 ∧
    (∑ k in Finset.Icc (price_key_of 0) (price_key_of 0),
      profile_vol (run (mkState 0) c1Ops).1.volume_profile k) = 100 ∧
    100 * 10 < 190 * 7 ∧
    profile_vol (run (mkState 0) c1Ops).1.volume_profile 10 = 90 := by
  refine ⟨by decide, by decide, by decide, ?_, by decide, by decide⟩
  rw [show price_key_of 0 = 0 from by decide]
  rw [Finset.Icc_self, Finset.sum_singleton]
  decide

set_option maxRecDepth 10000 in
set_option maxHeartbeats 2000000 in
/-- Witness for `value_area_correct` on the gap profile of `c1Ops` with the
source's own 70 % target (133 of 190). -/
theorem value_area_correct_witness :
    (∀ p ∈ (run (mkState 0) c1Ops).1.volume_profile,
      p.2.price = (p.1 : ℚ) / 4) ∧
    get_poc (run (mkState 0) c1Ops).1 = some 0 ∧
    get_value_area_with (run (mkState 0) c1Ops).1 133 = some (0, 0) ∧
    ((0 : ℚ) ≤ 0 ∧ (0 : ℚ) ≤ 0 ∧
      (133 ≤ ∑ k in Finset.Icc (price_key_of (0 : ℚ)) (price_key_of (0 : ℚ)),
          profile_vol (run (mkState 0) c1Ops).1.volume_profile k ∨
        (profile_vol (run (mkState 0) c1Ops).1.volume_profile
            (price_key_of (0 : ℚ) + 1) = 0 ∧
          profile_vol (run (mkState 0) c1Ops).1.volume_profile
            (price_key_of (0 : ℚ) - 1) = 0))) :=
  ⟨by decide, by decide, by decide,
    value_area_correct (run (mkState 0) c1Ops).1 133 (by decide) 0 0 0
      (by decide) (by decide)⟩

end Orderflow
